import Mathlib

/-!
# Verification of the `legend` module (a ChIPS legend overlay builder)

This file gives a shallow embedding of `src/legend.py`, a small orchestration
script over the ChIPS plotting toolkit, and settles the frozen claims about it.

The embedding has two layers:

* **String layer** — faithful translations of the two report-parsing helpers
  `Legend._get_current_object_name` and `Legend._get_all_object_name`, which
  parse the free-text reports returned by the host's `info_current()` /
  `info()` calls.  Python exceptions are modelled by `Except LegendErr`;
  `list[-1]` and `split(...)[1]` on too-short lists raise `IndexError`, which
  is modelled by the `indexError` constructor.

* **Host layer** — the ChIPS host application is an external collaborator
  (the spec's §6 "EXTERNAL INTERFACES"); it is modelled as an explicit state
  record `Host` with one primitive per toolkit call used by the source
  (`add_frame`, `add_curve`, `set_current_frame`, `move_frame`, the undo
  block pair, ...).  The source's methods (`__init__`, `_draw`, `label`,
  `update`, `move`, ...) are translated statement by statement as functions
  threading a `Host`.  A raised Python exception is modelled by returning the
  error together with the host state at raise time, so that "no mutation
  happened before the raise" is expressible.
-/

set_option maxHeartbeats 1000000

/-- Python exceptions raised by the module: `NotImplementedError` (failed
construction preconditions), `RuntimeError` (not-found report / label count
mismatch) and `IndexError` (out-of-range list indexing such as `ff[-1]` on an
empty list or `split("[")[1]` with no bracket). -/
inductive LegendErr where
  | notImplemented : String → LegendErr
  | runtime : String → LegendErr
  | indexError : LegendErr
deriving DecidableEq, Repr

/-! ## String layer: the report parsers

`_get_current_object_name` / `_get_all_object_name` in `src/legend.py`
(lines 313–340).  `info_current()` / `info()` return either `None` (modelled
as `none`) or a free-text multi-line report.  Python strings are modelled as
their character lists (`List Char`); every separator the source splits on
(`"\n"`, `"["`, `"]"`) is a single character, so Python `s.split(sep)` is
`List.splitOn sep`, `s.strip()` drops whitespace at both ends, and
`s.startswith(p)` is the list-prefix test. -/

/-- A Python string, as its list of characters. -/
abbrev PyStr := List Char

/-- Python `s.strip()`: drop leading and trailing whitespace. -/
def pyStrip (s : PyStr) : PyStr :=
  ((s.dropWhile Char.isWhitespace).reverse.dropWhile Char.isWhitespace).reverse

/-- Python `s.startswith(p)`. -/
def pyStartsWith (s p : PyStr) : Bool := p.isPrefixOf s

/-- `line.split("[")[1].split("]")[0]`: the token between the first `[` and
the following `]`.  Python raises `IndexError` when the line has no `[`. -/
def bracket_token (line : PyStr) : Except LegendErr PyStr :=
  match line.splitOn '[' with
  | _ :: p1 :: _ => .ok ((p1.splitOn ']').headD [])
  | _ => .error .indexError

/-- Total version of `bracket_token`, used to state the parser's behaviour
declaratively (it agrees with `bracket_token` on lines containing a `[`). -/
def bracket_token_total (line : PyStr) : PyStr :=
  (((line.splitOn '[').getD 1 []).splitOn ']').headD []

/-- The lines of report `s` that (after stripping) start with the type tag
`name` — the lines selected by both parsers' list comprehension. -/
def matching_lines (s name : PyStr) : List PyStr :=
  (s.splitOn '\n').filter (fun x => pyStartsWith (pyStrip x) name)

/-- The not-found `RuntimeError` message `"No {name} objects to operate on"`. -/
def noObjectsMsg (name : PyStr) : PyStr :=
  "No ".toList ++ name ++ " objects to operate on".toList

/-- `Legend._get_current_object_name` (src/legend.py:313–327): parse the
`info_current()` report; a `None` report raises `RuntimeError`, then the
*last* line starting with `name` is selected (`ff[-1]` raises `IndexError`
when no line matches) and its bracketed token returned. -/
def get_current_object_name (report : Option PyStr) (name : PyStr) :
    Except LegendErr PyStr :=
  match report with
  | none => .error (.runtime (noObjectsMsg name).asString)
  | some s =>
    match (matching_lines s name).getLast? with
    | none => .error .indexError
    | some f => bracket_token f

/-- `Legend._get_all_object_name` (src/legend.py:329–340): parse the `info()`
report; a `None` report raises `RuntimeError`, otherwise return the bracketed
token of *every* line starting with `name`, in report order (an empty result
list is returned, not an error, when no line matches). -/
def get_all_object_name (report : Option PyStr) (name : PyStr) :
    Except LegendErr (List PyStr) :=
  match report with
  | none => .error (.runtime (noObjectsMsg name).asString)
  | some s => (matching_lines s name).mapM bracket_token

lemma bracket_token_ok (l : PyStr) (h : 2 ≤ (l.splitOn '[').length) :
    bracket_token l = .ok (bracket_token_total l) := by
  unfold bracket_token bracket_token_total
  match hsp : l.splitOn '[' with
  | [] => simp [hsp] at h
  | [a] => simp [hsp] at h
  | a :: b :: t => simp [hsp]

lemma mapM_bracket_ok (ls : List PyStr)
    (h : ∀ l ∈ ls, 2 ≤ (l.splitOn '[').length) :
    ls.mapM bracket_token = .ok (ls.map bracket_token_total) := by
  induction ls with
  | nil => rfl
  | cons a t ih =>
    have ha := bracket_token_ok a (h a (by simp))
    have ht := ih (fun l hl => h l (by simp [hl]))
    rw [List.mapM_cons, ha, ht]
    rfl

/-! ## Host layer: the ChIPS host state

The host toolkit is the spec's external collaborator (§6).  Objects are
identified by `Nat` ids drawn from a single fresh counter; per-type creation
order is kept in per-type id lists (what `info()` reports, in order), and the
per-type "current object" pointers are what `info_current()` reports.
Cosmetic attributes that no claim mentions (frame border colour and stem,
axis ranges and tick visibility, region colours and opacity) are not
tracked. -/

/-- The symbol-appearance block of a ChIPS curve (`curve.symbol`), restricted
to the five properties the source transfers to points
(`_get_point_properties`, src/legend.py:175–183). -/
structure SymProps where
  angle : Int
  color : String
  fill : Bool
  size : Nat
  style : String
deriving DecidableEq, Repr

/-- The line-appearance block of a ChIPS curve. -/
structure LineProps where
  color : String
  style : String
  thickness : Nat
deriving DecidableEq, Repr

/-- The style descriptor returned by the host's `get_curve` and accepted by
`add_curve` / `set_curve`. -/
structure CurveProps where
  line : LineProps
  symbol : SymProps
deriving DecidableEq, Repr

/-- A ChIPS point's appearance (`ChipsPoint`), restricted to the five
properties set by `_get_point_properties`. -/
structure PointProps where
  angle : Int
  color : String
  fill : Bool
  size : Nat
  style : String
deriving DecidableEq, Repr

/-- The object types whose reports the source queries. -/
inductive ObjType where
  | window | frame | plot | curve | point | label
deriving DecidableEq, Repr

/-- The type tag at the start of a report line for each object type. -/
def ObjType.tag : ObjType → String
  | .window => "Window"
  | .frame => "Frame"
  | .plot => "Plot"
  | .curve => "Curve"
  | .point => "Point"
  | .label => "Label"

/-- The ChIPS host application state, as far as the source observes and
mutates it.  Coordinates are modelled as exact rationals. -/
structure Host where
  nextId : Nat
  windows : List Nat
  frames : List Nat
  plots : List Nat
  curves : List Nat
  points : List Nat
  labels : List Nat
  regions : List Nat
  axes : List Nat
  curveProps : Nat → CurveProps
  curveData : Nat → List ℚ × List ℚ
  pointProps : Nat → PointProps
  pointPos : Nat → ℚ × ℚ
  labelText : Nat → String
  labelPos : Nat → ℚ × ℚ
  frameRect : Nat → ℚ × ℚ × ℚ × ℚ
  framePos : Nat → Int × Int
  curWin : Option Nat
  curFrm : Option Nat
  curPlot : Option Nat
  curCurve : Option Nat
  curPoint : Option Nat
  curLabel : Option Nat
  frameFixed : Nat → Bool
  undoDepth : Nat
  output : List String

/-- Pointwise update of a `Nat`-indexed map. -/
def upd {α : Type} (f : Nat → α) (i : Nat) (v : α) : Nat → α :=
  fun z => if z = i then v else f z

@[simp] lemma upd_same {α : Type} (f : Nat → α) (i : Nat) (v : α) :
    upd f i v i = v := by simp [upd]

@[simp] lemma upd_other {α : Type} (f : Nat → α) (i z : Nat) (v : α)
    (h : z ≠ i) : upd f i v z = f z := by simp [upd, h]

/-- `True` when no object of any type exists — exactly when the host's
`info()`/`info_current()` reports are `None` (the spec's "empty report"). -/
def Host.isEmptyB (h : Host) : Bool :=
  h.windows.isEmpty && h.frames.isEmpty && h.plots.isEmpty && h.curves.isEmpty
    && h.points.isEmpty && h.labels.isEmpty && h.regions.isEmpty && h.axes.isEmpty

/-- All ids of the given type, in creation (report) order. -/
def Host.objList (h : Host) : ObjType → List Nat
  | .window => h.windows
  | .frame => h.frames
  | .plot => h.plots
  | .curve => h.curves
  | .point => h.points
  | .label => h.labels

/-- The current object of the given type, as `info_current()` reports it. -/
def Host.curPtr (h : Host) : ObjType → Option Nat
  | .window => h.curWin
  | .frame => h.curFrm
  | .plot => h.curPlot
  | .curve => h.curCurve
  | .point => h.curPoint
  | .label => h.curLabel

/-- `Legend._get_all_object_name` acting on the host: `info()` is `None`
(raising the not-found `RuntimeError`) exactly when no object exists,
otherwise all ids of the type are returned in report order.  The string-level
parsing itself is the verified `get_all_object_name` above. -/
def hostAll (h : Host) (ty : ObjType) : Except LegendErr (List Nat) :=
  if h.isEmptyB then .error (.runtime ("No " ++ ty.tag ++ " objects to operate on"))
  else .ok (h.objList ty)

/-- `Legend._get_current_object_name` acting on the host: `info_current()` is
`None` exactly when no object exists; with a report present but no line for
the requested type, the parser's `ff[-1]` raises `IndexError`; otherwise the
(unique, hence last) line for the type carries the current object's id. -/
def hostCurrent (h : Host) (ty : ObjType) : Except LegendErr Nat :=
  if h.isEmptyB then .error (.runtime ("No " ++ ty.tag ++ " objects to operate on"))
  else
    match h.curPtr ty with
    | none => .error .indexError
    | some i => .ok i

/-- Host `add_frame(x0, y0, x1, y1, frm)`: create a frame (border and stem
attributes untracked) and make it current. -/
def add_frame (h : Host) (x0 y0 x1 y1 : ℚ) : Host :=
  { h with
    nextId := h.nextId + 1
    frames := h.frames ++ [h.nextId]
    frameRect := upd h.frameRect h.nextId (x0, y0, x1, y1)
    framePos := upd h.framePos h.nextId (0, 0)
    curFrm := some h.nextId }

/-- Host `add_plot(plt)`: create a plot (margins/style untracked) and make it
current. -/
def add_plot (h : Host) : Host :=
  { h with
    nextId := h.nextId + 1
    plots := h.plots ++ [h.nextId]
    curPlot := some h.nextId }

/-- Host `add_axis(...)`: create an axis (ranges and tick attributes
untracked).  Axes only matter to the claims through the object count. -/
def add_axis (h : Host) : Host :=
  { h with nextId := h.nextId + 1, axes := h.axes ++ [h.nextId] }

/-- Host `hide_axis()`: visibility is not tracked; no claim concerns it. -/
def hide_axis (h : Host) : Host := h

/-- Host `add_region(xs, ys, bg)`: create a region (coordinates and fill
attributes untracked). -/
def add_region (h : Host) : Host :=
  { h with nextId := h.nextId + 1, regions := h.regions ++ [h.nextId] }

/-- Host `add_curve(xs, ys, props)`: create a curve with the given data and
style and make it the current curve. -/
def add_curve (h : Host) (xs ys : List ℚ) (props : CurveProps) : Host :=
  { h with
    nextId := h.nextId + 1
    curves := h.curves ++ [h.nextId]
    curveProps := upd h.curveProps h.nextId props
    curveData := upd h.curveData h.nextId (xs, ys)
    curCurve := some h.nextId }

/-- Host `add_point(x, y, pnt)`: create a point and make it current. -/
def add_point (h : Host) (x y : ℚ) (p : PointProps) : Host :=
  { h with
    nextId := h.nextId + 1
    points := h.points ++ [h.nextId]
    pointProps := upd h.pointProps h.nextId p
    pointPos := upd h.pointPos h.nextId (x, y)
    curPoint := some h.nextId }

/-- Host `add_label(x, y, text, "valign=0.5")`: create a label and make it
current (the valign attribute is untracked). -/
def add_label (h : Host) (x y : ℚ) (text : String) : Host :=
  { h with
    nextId := h.nextId + 1
    labels := h.labels ++ [h.nextId]
    labelText := upd h.labelText h.nextId text
    labelPos := upd h.labelPos h.nextId (x, y)
    curLabel := some h.nextId }

/-- Host `set_curve(id, props)`: replace the full style of curve `id`. -/
def set_curve (h : Host) (i : Nat) (p : CurveProps) : Host :=
  { h with curveProps := upd h.curveProps i p }

/-- `props` with `symbol.style` set to `"none"` — the effect of
`set_curve(..., "symbol.style=none")` on stored style `props`. -/
def symbolNone (p : CurveProps) : CurveProps :=
  { p with symbol := { p.symbol with style := "none" } }

/-- Host `set_curve(id, "symbol.style=none")`: set only the symbol style of
curve `id` to none. -/
def set_curve_symbol_none (h : Host) (i : Nat) : Host :=
  { h with curveProps := upd h.curveProps i (symbolNone (h.curveProps i)) }

/-- Host `set_curve("symbol.style=none")` with no id: acts on the current
curve (a no-op if none is current; in the source this call always directly
follows an `add_curve`). -/
def set_curve_current_symbol_none (h : Host) : Host :=
  match h.curCurve with
  | none => h
  | some i => set_curve_symbol_none h i

/-- Host `set_point(id, pnt)`. -/
def set_point (h : Host) (i : Nat) (p : PointProps) : Host :=
  { h with pointProps := upd h.pointProps i p }

/-- Host `set_label_text(id, text)`. -/
def set_label_text (h : Host) (i : Nat) (t : String) : Host :=
  { h with labelText := upd h.labelText i t }

/-- Host `get_curve(id)`: read the current style of curve `id`. -/
def get_curve (h : Host) (i : Nat) : CurveProps := h.curveProps i

/-- Host `set_current_window(id)`. -/
def set_current_window (h : Host) (i : Nat) : Host := { h with curWin := some i }

/-- Host `set_current_frame(id)`. -/
def set_current_frame (h : Host) (i : Nat) : Host := { h with curFrm := some i }

/-- Host `set_current_plot(id)`. -/
def set_current_plot (h : Host) (i : Nat) : Host := { h with curPlot := some i }

/-- Host `open_undo_block()`. -/
def open_undo_block (h : Host) : Host := { h with undoDepth := h.undoDepth + 1 }

/-- Host `close_undo_block()`. -/
def close_undo_block (h : Host) : Host := { h with undoDepth := h.undoDepth - 1 }

/-- A `print(...)` call: append one line to the session output. -/
def pushOutput (h : Host) (s : String) : Host := { h with output := h.output ++ [s] }

/-- Translate frame `f` by `(x, y)` pixels. -/
def translateFrame (h : Host) (f : Nat) (x y : Int) : Host :=
  { h with framePos := upd h.framePos f ((h.framePos f).1 + x, (h.framePos f).2 + y) }

/-- Host `move_frame(cid, x, y, 1)` with `cid.coord_sys = PIXEL`: translate
the current frame by `(x, y)` pixels; the host may reject the move (modelled
by the `frameFixed` oracle, covering the spec's "host rejects a move"), and
rejects it when no frame is current. -/
def move_frame (h : Host) (x y : Int) : Except String Host :=
  match h.curFrm with
  | none => .error "move_frame failed: no current frame"
  | some f =>
    if h.frameFixed f then .error "move_frame failed: host rejected the move"
    else .ok (translateFrame h f x y)

/-! ## The `Legend` class (src/legend.py:12–340)

The per-instance attributes set by `__init__` and its helpers. -/

/-- The state the `Legend` instance retains across calls: the reverse flag,
the saved origin window/frame/plot ids, the captured source-curve id list and
cloned style list, the overlay frame id, and the three per-entry overlay id
lists (curves, points, labels). -/
structure Legend where
  reverse : Bool
  orig_win : Nat
  orig_frm : Nat
  orig_plot : Nat
  usr_crvs : List Nat
  lgnd : List CurveProps
  frm : Nat
  lgnd_crvs : List Nat
  lgnd_pnts : List Nat
  lgnd_lbls : List Nat
deriving DecidableEq, Repr

/-- `Legend._get_point_properties(curve_properties)` (src/legend.py:175–183):
copy the five properties `angle, color, fill, size, style` from the given
symbol block onto a fresh `ChipsPoint`.  (The source passes
`self.lgnd[ii].symbol` / `cc.symbol` as the argument.) -/
def Legend.get_point_properties (sym : SymProps) : PointProps :=
  { angle := sym.angle, color := sym.color, fill := sym.fill,
    size := sym.size, style := sym.style }

/-- `Legend._get_current_curves` (src/legend.py:92–107): save the current
window/frame/plot ids, the list of all curve ids and their cloned styles.
Pure reads, so the host is unchanged. -/
def Legend.get_current_curves (h : Host) :
    Except LegendErr (Nat × Nat × Nat × List Nat × List CurveProps) :=
  match hostCurrent h .window with
  | .error e => .error e
  | .ok ow =>
  match hostCurrent h .frame with
  | .error e => .error e
  | .ok ofr =>
  match hostCurrent h .plot with
  | .error e => .error e
  | .ok op =>
  match hostAll h .curve with
  | .error e => .error e
  | .ok usr => .ok (ow, ofr, op, usr, usr.map (fun x => get_curve h x))

/-- `Legend._make_frame` (src/legend.py:109–132): create the bordered overlay
frame sized by the curve count (`ncrv = min(len(lgnd)*0.075, 0.4)`,
`add_frame(0.5, 0.9-ncrv, 0.9, 0.9, frm)`) and record its id from the
current-frame lookup. -/
def Legend.make_frame (nLgnd : Nat) (h : Host) : Except LegendErr Nat × Host :=
  let ncrv : ℚ := min ((nLgnd : ℚ) * (3 / 40)) (2 / 5)
  let h1 := add_frame h (1 / 2) (9 / 10 - ncrv) (9 / 10) (9 / 10)
  match hostCurrent h1 .frame with
  | .error e => (.error e, h1)
  | .ok frm => (.ok frm, h1)

/-- `Legend._make_drawing_area` (src/legend.py:135–160): add the hidden plot
and the two hidden axes (X range [0,3], Y range [-1, len(lgnd)]; ranges and
appearance untracked). -/
def Legend.make_drawing_area (h : Host) : Host :=
  hide_axis (add_axis (hide_axis (add_axis (add_plot h))))

/-- `Legend._background` (src/legend.py:162–173): add the filled background
region spanning the plot extent. -/
def Legend.background (h : Host) : Host :=
  add_region h

/-- The vertical slot for entry `ii` of `n` (src/legend.py:196–199):
`len(lgnd)-ii-1` when not reversed, `ii` when reversed. -/
def slotY (reverse : Bool) (n ii : Nat) : Int :=
  if reverse = false then (n : Int) - ii - 1 else ii

/-- The body of the `_draw` loop (src/legend.py:195–207), one iteration per
captured curve style: compute the slot, `add_curve([0.25,1],[yy,yy], lgnd[ii])`,
record the current curve id, suppress its symbol, `add_point(0.625, yy, pnt)`
with the symbol properties, record the current point id,
`add_label(1.25, yy, str(ii), "valign=0.5")`, record the current label id. -/
def Legend.drawAux (reverse : Bool) (n : Nat) :
    Nat → List CurveProps → Host → List Nat → List Nat → List Nat →
    Except LegendErr (List Nat × List Nat × List Nat) × Host
  | _, [], h, crvs, pnts, lbls => (.ok (crvs, pnts, lbls), h)
  | ii, props :: tl, h, crvs, pnts, lbls =>
    let yy : ℚ := (slotY reverse n ii : ℚ)
    let h1 := add_curve h [1 / 4, 1] [yy, yy] props
    match hostCurrent h1 .curve with
    | .error e => (.error e, h1)
    | .ok cid =>
      let h2 := set_curve_current_symbol_none h1
      let pnt := Legend.get_point_properties props.symbol
      let h3 := add_point h2 (5 / 8) yy pnt
      match hostCurrent h3 .point with
      | .error e => (.error e, h3)
      | .ok pid =>
        let h4 := add_label h3 (5 / 4) yy (toString ii)
        match hostCurrent h4 .label with
        | .error e => (.error e, h4)
        | .ok lid =>
          Legend.drawAux reverse n (ii + 1) tl h4
            (crvs ++ [cid]) (pnts ++ [pid]) (lbls ++ [lid])

/-- `Legend._draw` (src/legend.py:186–207): iterate `drawAux` over the
captured styles starting from empty id lists. -/
def Legend.draw (reverse : Bool) (lgnd : List CurveProps) (h : Host) :
    Except LegendErr (List Nat × List Nat × List Nat) × Host :=
  Legend.drawAux reverse lgnd.length 0 lgnd h [] [] []

/-- The warning printed when seven or more curves are present
(src/legend.py:73). -/
def warningMsg : String :=
  "Warning: Large number of curves found.  This routine works best when there are fewer than 7 curves"

/-- The undo-block section of `Legend.__init__` (src/legend.py:76–89):
open the undo block, capture the current curves, build the overlay frame,
drawing area, background and per-curve glyphs, restore the original
window/frame/plot and close the undo block. -/
def Legend.initBody (reverse : Bool) (h : Host) : Except LegendErr Legend × Host :=
  let hu := open_undo_block h
  match Legend.get_current_curves hu with
  | .error e => (.error e, hu)
  | .ok (ow, ofr, op, usr, lgnd) =>
  match Legend.make_frame lgnd.length hu with
  | (.error e, h1) => (.error e, h1)
  | (.ok frm, h1) =>
  let h2 := Legend.background (Legend.make_drawing_area h1)
  match Legend.draw reverse lgnd h2 with
  | (.error e, h3) => (.error e, h3)
  | (.ok (lcrvs, lpnts, llbls), h3) =>
  let h4 := set_current_plot (set_current_frame (set_current_window h3 ow) ofr) op
  (.ok { reverse := reverse, orig_win := ow, orig_frm := ofr, orig_plot := op,
         usr_crvs := usr, lgnd := lgnd, frm := frm,
         lgnd_crvs := lcrvs, lgnd_pnts := lpnts, lgnd_lbls := llbls },
   close_undo_block h4)

/-- `Legend.__init__(reverse)` (src/legend.py:58–89): the four precondition
checks (window/frame/plot counts must be 1, at least one curve), the ≥7-curve
warning (a `print`, not an exception), then the undo-block body.  A raised
exception is returned together with the host state at raise time. -/
def Legend.init (reverse : Bool) (h : Host) : Except LegendErr Legend × Host :=
  match hostAll h .window with
  | .error e => (.error e, h)
  | .ok wins =>
  if wins.length ≠ 1 then (.error (.notImplemented "Must have one and only one window"), h) else
  match hostAll h .frame with
  | .error e => (.error e, h)
  | .ok frms =>
  if frms.length ≠ 1 then (.error (.notImplemented "Must have one and only one frame"), h) else
  match hostAll h .plot with
  | .error e => (.error e, h)
  | .ok plts =>
  if plts.length ≠ 1 then (.error (.notImplemented "Must have one and only one plot"), h) else
  match hostAll h .curve with
  | .error e => (.error e, h)
  | .ok crvs =>
  if crvs.length = 0 then (.error (.notImplemented "Must have at least one curve."), h) else
  let h0 := if crvs.length ≥ 7 then pushOutput h warningMsg else h
  Legend.initBody reverse h0

/-- The `for lbid,lbl in zip(self.lgnd_lbls, label_vals)` loop of
`Legend.label` (src/legend.py:223–224). -/
def setLabels (h : Host) : List (Nat × String) → Host
  | [] => h
  | (i, s) :: tl => setLabels (set_label_text h i s) tl

/-- The count-mismatch message of `Legend.label` (src/legend.py:217). -/
def mismatchMsg : String := "Number of labels does not match the number of curves"

/-- `Legend.label(label_vals)` (src/legend.py:210–227): raise on a count
mismatch before touching the host; otherwise, inside one undo block, switch
to the overlay frame, rewrite every label text in order, and restore the
previously current frame. -/
def Legend.label (leg : Legend) (vals : List String) (h : Host) :
    Option LegendErr × Host :=
  if vals.length ≠ leg.lgnd_lbls.length then (some (.runtime mismatchMsg), h)
  else
    let h1 := open_undo_block h
    match hostCurrent h1 .frame with
    | .error e => (some e, h1)
    | .ok old_frame =>
      let h2 := set_current_frame h1 leg.frm
      let h3 := setLabels h2 (leg.lgnd_lbls.zip vals)
      (none, close_undo_block (set_current_frame h3 old_frame))

/-- The `for usr,lgn,lpt in zip(...)` loop of `Legend.update`
(src/legend.py:240–249): per entry, refocus the original window/frame/plot,
re-read the source curve's current style, switch to the overlay frame, copy
the style onto the overlay curve, suppress its symbol, and copy the symbol
block onto the overlay point. -/
def Legend.updateLoop (leg : Legend) : List (Nat × Nat × Nat) → Host → Host
  | [], h => h
  | (usr, lgn, lpt) :: tl, h =>
    let ha := set_current_plot
      (set_current_frame (set_current_window h leg.orig_win) leg.orig_frm) leg.orig_plot
    let cc := get_curve ha usr
    let hb := set_current_frame ha leg.frm
    let hc := set_curve_symbol_none (set_curve hb lgn cc) lgn
    let pnt := Legend.get_point_properties cc.symbol
    let hd := set_point hc lpt pnt
    Legend.updateLoop leg tl hd

/-- `Legend.update()` (src/legend.py:231–253): inside one undo block, record
the currently current frame, run the per-entry resync loop over the zipped
id triples, and restore that frame (only the frame — the loop's last
window/plot focus changes are left in place). -/
def Legend.update (leg : Legend) (h : Host) : Option LegendErr × Host :=
  let h1 := open_undo_block h
  match hostCurrent h1 .frame with
  | .error e => (some e, h1)
  | .ok old_frame =>
    let h2 := Legend.updateLoop leg
      (leg.usr_crvs.zip (leg.lgnd_crvs.zip leg.lgnd_pnts)) h1
    (none, close_undo_block (set_current_frame h2 old_frame))

/-- `my_move_frame(x, y)` (src/legend.py:279–289): attempt a pixel-offset
move of the current frame; an error is caught and printed, leaving the host
otherwise unchanged. -/
def my_move_frame (h : Host) (x y : Int) : Host :=
  match move_frame h x y with
  | .ok h1 => h1
  | .error e => pushOutput h e

/-- The `while True` key loop of `Legend.move` (src/legend.py:291–306): each
key byte is lowercased and ASCII-decoded; `w`/`s`/`a`/`d` move the frame by
the fixed pixel offsets, `q` breaks out of the loop, and any other key is
ignored.  The blocking `get_pick(1, KEY_PRESS)` event stream is modelled as
the list of decoded key characters; an exhausted stream ends the loop. -/
def moveLoop : List Char → Host → Host
  | [], h => h
  | k :: ks, h =>
    if k.toLower = 'w' then moveLoop ks (my_move_frame h 0 5)
    else if k.toLower = 's' then moveLoop ks (my_move_frame h 0 (-5))
    else if k.toLower = 'a' then moveLoop ks (my_move_frame h (-5) 0)
    else if k.toLower = 'd' then moveLoop ks (my_move_frame h 5 0)
    else if k.toLower = 'q' then h
    else moveLoop ks h

/-- The five instruction lines printed by `Legend.move` (src/legend.py:264–269). -/
def moveBanner : List String :=
  ["Make sure plot window has focus.  Use the following keys to move the legend:",
   "  w : Up", "  s : Down", "  a : Left", "  d : Right",
   "  q : Quit (return to prompt)"]

/-- `Legend.move()` (src/legend.py:257–310): print the instructions, then
inside one undo block record the current frame, focus the overlay frame, run
the interactive key loop, and restore the recorded frame. -/
def Legend.move (leg : Legend) (keys : List Char) (h : Host) :
    Option LegendErr × Host :=
  let h0 := moveBanner.foldl pushOutput h
  let h1 := open_undo_block h0
  match hostCurrent h1 .frame with
  | .error e => (some e, h1)
  | .ok old_frame =>
    let h2 := moveLoop keys (set_current_frame h1 leg.frm)
    (none, close_undo_block (set_current_frame h2 old_frame))

/-! ## Proof infrastructure -/

@[simp] lemma append_singleton_isEmpty {α : Type} (l : List α) (a : α) :
    (l ++ [a]).isEmpty = false := by cases l <;> rfl

@[simp] lemma isEmptyB_add_curve (h : Host) (xs ys : List ℚ) (p : CurveProps) :
    (add_curve h xs ys p).isEmptyB = false := by
  simp [Host.isEmptyB, add_curve]

@[simp] lemma isEmptyB_add_point (h : Host) (x y : ℚ) (p : PointProps) :
    (add_point h x y p).isEmptyB = false := by
  simp [Host.isEmptyB, add_point]

@[simp] lemma isEmptyB_add_label (h : Host) (x y : ℚ) (t : String) :
    (add_label h x y t).isEmptyB = false := by
  simp [Host.isEmptyB, add_label]

@[simp] lemma isEmptyB_add_frame (h : Host) (a b c d : ℚ) :
    (add_frame h a b c d).isEmptyB = false := by
  simp [Host.isEmptyB, add_frame]

lemma upd_upd_same {α : Type} (f : Nat → α) (i : Nat) (a b : α) :
    upd (upd f i a) i b = upd f i b := by
  funext z; by_cases hz : z = i <;> simp [upd, hz]

/-- The composite host effect of one iteration of the `_draw` loop. -/
def stepHost (r : Bool) (n ii : Nat) (p : CurveProps) (h : Host) : Host :=
  add_label
    (add_point (set_curve_current_symbol_none
        (add_curve h [1 / 4, 1] [(slotY r n ii : ℚ), (slotY r n ii : ℚ)] p))
      (5 / 8) (slotY r n ii : ℚ) (Legend.get_point_properties p.symbol))
    (5 / 4) (slotY r n ii : ℚ) (toString ii)

lemma drawAux_step (r : Bool) (n ii : Nat) (p : CurveProps) (tl : List CurveProps)
    (h : Host) (crvs pnts lbls : List Nat) :
    Legend.drawAux r n ii (p :: tl) h crvs pnts lbls =
      Legend.drawAux r n (ii + 1) tl (stepHost r n ii p h)
        (crvs ++ [h.nextId]) (pnts ++ [h.nextId + 1]) (lbls ++ [h.nextId + 2]) := by
  simp only [Legend.drawAux, hostCurrent, Host.curPtr, stepHost,
    set_curve_current_symbol_none, add_curve, add_point, add_label,
    set_curve_symbol_none, isEmptyB_add_curve, isEmptyB_add_point, isEmptyB_add_label]
  simp [Host.isEmptyB, add_curve, add_point, add_label, set_curve_symbol_none]

@[simp] lemma stepHost_nextId (r : Bool) (n ii : Nat) (p : CurveProps) (h : Host) :
    (stepHost r n ii p h).nextId = h.nextId + 3 := by
  simp [stepHost, add_label, add_point, set_curve_current_symbol_none,
    add_curve, set_curve_symbol_none]

lemma stepHost_curveProps (r : Bool) (n ii : Nat) (p : CurveProps) (h : Host) :
    (stepHost r n ii p h).curveProps = upd h.curveProps h.nextId (symbolNone p) := by
  simp [stepHost, add_label, add_point, set_curve_current_symbol_none,
    add_curve, set_curve_symbol_none, upd_upd_same]

lemma stepHost_curveData (r : Bool) (n ii : Nat) (p : CurveProps) (h : Host) :
    (stepHost r n ii p h).curveData =
      upd h.curveData h.nextId ([1 / 4, 1], [(slotY r n ii : ℚ), (slotY r n ii : ℚ)]) := by
  simp [stepHost, add_label, add_point, set_curve_current_symbol_none,
    add_curve, set_curve_symbol_none]

lemma stepHost_pointProps (r : Bool) (n ii : Nat) (p : CurveProps) (h : Host) :
    (stepHost r n ii p h).pointProps =
      upd h.pointProps (h.nextId + 1) (Legend.get_point_properties p.symbol) := by
  simp [stepHost, add_label, add_point, set_curve_current_symbol_none,
    add_curve, set_curve_symbol_none]

lemma stepHost_pointPos (r : Bool) (n ii : Nat) (p : CurveProps) (h : Host) :
    (stepHost r n ii p h).pointPos =
      upd h.pointPos (h.nextId + 1) (5 / 8, (slotY r n ii : ℚ)) := by
  simp [stepHost, add_label, add_point, set_curve_current_symbol_none,
    add_curve, set_curve_symbol_none]

lemma stepHost_labelText (r : Bool) (n ii : Nat) (p : CurveProps) (h : Host) :
    (stepHost r n ii p h).labelText = upd h.labelText (h.nextId + 2) (toString ii) := by
  simp [stepHost, add_label, add_point, set_curve_current_symbol_none,
    add_curve, set_curve_symbol_none]

lemma stepHost_labelPos (r : Bool) (n ii : Nat) (p : CurveProps) (h : Host) :
    (stepHost r n ii p h).labelPos =
      upd h.labelPos (h.nextId + 2) (5 / 4, (slotY r n ii : ℚ)) := by
  simp [stepHost, add_label, add_point, set_curve_current_symbol_none,
    add_curve, set_curve_symbol_none]

@[simp] lemma stepHost_frameFields (r : Bool) (n ii : Nat) (p : CurveProps) (h : Host) :
    (stepHost r n ii p h).windows = h.windows ∧
      (stepHost r n ii p h).frames = h.frames ∧
      (stepHost r n ii p h).plots = h.plots ∧
      (stepHost r n ii p h).curWin = h.curWin ∧
      (stepHost r n ii p h).curFrm = h.curFrm ∧
      (stepHost r n ii p h).curPlot = h.curPlot ∧
      (stepHost r n ii p h).undoDepth = h.undoDepth ∧
      (stepHost r n ii p h).output = h.output ∧
      (stepHost r n ii p h).frameRect = h.frameRect ∧
      (stepHost r n ii p h).framePos = h.framePos ∧
      (stepHost r n ii p h).frameFixed = h.frameFixed := by
  simp [stepHost, add_label, add_point, set_curve_current_symbol_none,
    add_curve, set_curve_symbol_none]

lemma range_map_shift0 (s k : Nat) :
    (List.range (k + 1)).map (fun j => s + 3 * j) =
      s :: (List.range k).map (fun j => s + 3 + 3 * j) := by
  rw [List.range_succ_eq_map, List.map_cons, List.map_map]
  congr 1
  exact List.map_congr_left (fun a _ => by simp [Function.comp]; omega)

lemma range_map_shift1 (s k : Nat) :
    (List.range (k + 1)).map (fun j => s + 3 * j + 1) =
      (s + 1) :: (List.range k).map (fun j => s + 3 + 3 * j + 1) := by
  rw [List.range_succ_eq_map, List.map_cons, List.map_map]
  congr 1
  exact List.map_congr_left (fun a _ => by simp [Function.comp]; omega)

lemma range_map_shift2 (s k : Nat) :
    (List.range (k + 1)).map (fun j => s + 3 * j + 2) =
      (s + 2) :: (List.range k).map (fun j => s + 3 + 3 * j + 2) := by
  rw [List.range_succ_eq_map, List.map_cons, List.map_map]
  congr 1
  exact List.map_congr_left (fun a _ => by simp [Function.comp]; omega)

/-- Full characterisation of the `_draw` loop: it always succeeds, the three
recorded id lists extend the accumulators with the three fresh ids of each
iteration (in order), the loop leaves every pre-existing object and every
focus pointer/undo/output field untouched, and entry `j` carries: the
captured style with suppressed symbol on the overlay curve, the sample
segment at the slot height, the symbol properties on the overlay point, and
the decimal index string on the label. -/
lemma drawAux_spec (r : Bool) (n : Nat) (props : List CurveProps) :
    ∀ (ii : Nat) (h : Host) (crvs pnts lbls : List Nat),
    ∃ h' : Host,
      Legend.drawAux r n ii props h crvs pnts lbls =
        (.ok (crvs ++ (List.range props.length).map (fun j => h.nextId + 3 * j),
              pnts ++ (List.range props.length).map (fun j => h.nextId + 3 * j + 1),
              lbls ++ (List.range props.length).map (fun j => h.nextId + 3 * j + 2)), h') ∧
      h'.nextId = h.nextId + 3 * props.length ∧
      h'.windows = h.windows ∧ h'.frames = h.frames ∧ h'.plots = h.plots ∧
      h'.curWin = h.curWin ∧ h'.curFrm = h.curFrm ∧ h'.curPlot = h.curPlot ∧
      h'.undoDepth = h.undoDepth ∧ h'.output = h.output ∧
      h'.frameRect = h.frameRect ∧ h'.framePos = h.framePos ∧
      h'.frameFixed = h.frameFixed ∧
      (∀ z, z < h.nextId → h'.curveProps z = h.curveProps z) ∧
      (∀ z, z < h.nextId → h'.pointProps z = h.pointProps z) ∧
      (∀ z, z < h.nextId → h'.labelText z = h.labelText z) ∧
      (∀ z, z < h.nextId → h'.curveData z = h.curveData z) ∧
      (∀ z, z < h.nextId → h'.pointPos z = h.pointPos z) ∧
      (∀ z, z < h.nextId → h'.labelPos z = h.labelPos z) ∧
      (∀ j, (hj : j < props.length) →
        h'.curveProps (h.nextId + 3 * j) = symbolNone (props.get ⟨j, hj⟩) ∧
        h'.curveData (h.nextId + 3 * j) =
          ([1 / 4, 1], [(slotY r n (ii + j) : ℚ), (slotY r n (ii + j) : ℚ)]) ∧
        h'.pointProps (h.nextId + 3 * j + 1) =
          Legend.get_point_properties (props.get ⟨j, hj⟩).symbol ∧
        h'.pointPos (h.nextId + 3 * j + 1) = (5 / 8, (slotY r n (ii + j) : ℚ)) ∧
        h'.labelText (h.nextId + 3 * j + 2) = toString (ii + j) ∧
        h'.labelPos (h.nextId + 3 * j + 2) = (5 / 4, (slotY r n (ii + j) : ℚ))) := by
  induction props with
  | nil =>
    intro ii h crvs pnts lbls
    exact ⟨h, by simp [Legend.drawAux], by simp, rfl, rfl, rfl, rfl, rfl, rfl, rfl, rfl,
      rfl, rfl, rfl, fun z _ => rfl, fun z _ => rfl, fun z _ => rfl,
      fun z _ => rfl, fun z _ => rfl, fun z _ => rfl,
      fun j hj => absurd hj (by simp)⟩
  | cons p tl ih =>
    intro ii h crvs pnts lbls
    obtain ⟨h', heq, hnext, hwin, hfrm, hplt, hcw, hcf, hcp, hund, hout, hfr, hfp, hff,
      hpcv, hppt, hplb, hpcd, hppo, hplo, hper⟩ :=
      ih (ii + 1) (stepHost r n ii p h) (crvs ++ [h.nextId]) (pnts ++ [h.nextId + 1])
        (lbls ++ [h.nextId + 2])
    have hstep := drawAux_step r n ii p tl h crvs pnts lbls
    have hsn : (stepHost r n ii p h).nextId = h.nextId + 3 := stepHost_nextId r n ii p h
    obtain ⟨sw, sf, sp, scw, scf, scp, sud, sout, sfr, sfp, sff⟩ :=
      stepHost_frameFields r n ii p h
    refine ⟨h', ?_, ?_, ?_, ?_, ?_, ?_, ?_, ?_, ?_, ?_, ?_, ?_, ?_,
      ?_, ?_, ?_, ?_, ?_, ?_, ?_⟩
    · rw [hstep, heq, hsn]
      simp only [List.length_cons, range_map_shift0, range_map_shift1, range_map_shift2]
      simp [List.append_assoc]
    · rw [hnext, hsn, List.length_cons]; ring
    · rw [hwin, sw]
    · rw [hfrm, sf]
    · rw [hplt, sp]
    · rw [hcw, scw]
    · rw [hcf, scf]
    · rw [hcp, scp]
    · rw [hund, sud]
    · rw [hout, sout]
    · rw [hfr, sfr]
    · rw [hfp, sfp]
    · rw [hff, sff]
    · intro z hz
      rw [hpcv z (by omega), stepHost_curveProps]
      exact upd_other _ _ _ _ (by omega)
    · intro z hz
      rw [hppt z (by omega), stepHost_pointProps]
      exact upd_other _ _ _ _ (by omega)
    · intro z hz
      rw [hplb z (by omega), stepHost_labelText]
      exact upd_other _ _ _ _ (by omega)
    · intro z hz
      rw [hpcd z (by omega), stepHost_curveData]
      exact upd_other _ _ _ _ (by omega)
    · intro z hz
      rw [hppo z (by omega), stepHost_pointPos]
      exact upd_other _ _ _ _ (by omega)
    · intro z hz
      rw [hplo z (by omega), stepHost_labelPos]
      exact upd_other _ _ _ _ (by omega)
    · intro j hj
      cases j with
      | zero =>
        refine ⟨?_, ?_, ?_, ?_, ?_, ?_⟩
        · rw [show h.nextId + 3 * 0 = h.nextId by ring,
            hpcv h.nextId (by omega), stepHost_curveProps, upd_same]
          rfl
        · rw [show h.nextId + 3 * 0 = h.nextId by ring,
            hpcd h.nextId (by omega), stepHost_curveData, upd_same,
            show ii + 0 = ii by ring]
        · rw [show h.nextId + 3 * 0 + 1 = h.nextId + 1 by ring,
            hppt (h.nextId + 1) (by omega), stepHost_pointProps, upd_same]
          rfl
        · rw [show h.nextId + 3 * 0 + 1 = h.nextId + 1 by ring,
            hppo (h.nextId + 1) (by omega), stepHost_pointPos, upd_same,
            show ii + 0 = ii by ring]
        · rw [show h.nextId + 3 * 0 + 2 = h.nextId + 2 by ring,
            hplb (h.nextId + 2) (by omega), stepHost_labelText, upd_same,
            show ii + 0 = ii by ring]
        · rw [show h.nextId + 3 * 0 + 2 = h.nextId + 2 by ring,
            hplo (h.nextId + 2) (by omega), stepHost_labelPos, upd_same,
            show ii + 0 = ii by ring]
      | succ j' =>
        have hj' : j' < tl.length := by
          simpa [Nat.succ_lt_succ_iff] using hj
        obtain ⟨c1, c2, c3, c4, c5, c6⟩ := hper j' hj'
        rw [hsn] at c1 c2 c3 c4 c5 c6
        refine ⟨?_, ?_, ?_, ?_, ?_, ?_⟩
        · rw [show h.nextId + 3 * (j' + 1) = h.nextId + 3 + 3 * j' by ring, c1]
          rfl
        · rw [show h.nextId + 3 * (j' + 1) = h.nextId + 3 + 3 * j' by ring, c2,
            show ii + 1 + j' = ii + (j' + 1) by ring]
        · rw [show h.nextId + 3 * (j' + 1) + 1 = h.nextId + 3 + 3 * j' + 1 by ring, c3]
          rfl
        · rw [show h.nextId + 3 * (j' + 1) + 1 = h.nextId + 3 + 3 * j' + 1 by ring, c4,
            show ii + 1 + j' = ii + (j' + 1) by ring]
        · rw [show h.nextId + 3 * (j' + 1) + 2 = h.nextId + 3 + 3 * j' + 2 by ring, c5,
            show ii + 1 + j' = ii + (j' + 1) by ring]
        · rw [show h.nextId + 3 * (j' + 1) + 2 = h.nextId + 3 + 3 * j' + 2 by ring, c6,
            show ii + 1 + j' = ii + (j' + 1) by ring]

lemma isEmptyB_false_of_windows (h : Host) (hne : h.windows ≠ []) :
    h.isEmptyB = false := by
  unfold Host.isEmptyB
  cases hwe : h.windows with
  | nil => exact absurd hwe hne
  | cons a t => simp

lemma get_current_curves_spec (h : Host) (w f0 p0 : Nat)
    (hne : h.isEmptyB = false) (hcw : h.curWin = some w) (hcf : h.curFrm = some f0)
    (hcp : h.curPlot = some p0) :
    Legend.get_current_curves h = .ok (w, f0, p0, h.curves, h.curves.map h.curveProps) := by
  simp [Legend.get_current_curves, hostCurrent, hostAll, hne, Host.curPtr,
    Host.objList, hcw, hcf, hcp, get_curve]

lemma make_frame_spec (nL : Nat) (h : Host) :
    Legend.make_frame nL h =
      (.ok h.nextId,
       add_frame h (1 / 2) (9 / 10 - min ((nL : ℚ) * (3 / 40)) (2 / 5)) (9 / 10) (9 / 10)) := by
  simp [Legend.make_frame, hostCurrent, Host.curPtr, add_frame, Host.isEmptyB]

/-- The host right before the `_draw` loop runs during construction: after
the undo block is opened and the overlay frame, plot, axes and background
region are created. -/
def preDrawHost (h : Host) : Host :=
  Legend.background (Legend.make_drawing_area
    (add_frame (open_undo_block h) (1 / 2)
      (9 / 10 - min ((h.curves.length : ℚ) * (3 / 40)) (2 / 5)) (9 / 10) (9 / 10)))

lemma preDrawHost_fields (h : Host) :
    (preDrawHost h).nextId = h.nextId + 5 ∧ (preDrawHost h).windows = h.windows ∧
      (preDrawHost h).curves = h.curves ∧
      (preDrawHost h).undoDepth = h.undoDepth + 1 ∧
      (preDrawHost h).output = h.output ∧
      (preDrawHost h).curveProps = h.curveProps ∧
      (preDrawHost h).pointProps = h.pointProps ∧
      (preDrawHost h).labelText = h.labelText := by
  simp [preDrawHost, Legend.background, Legend.make_drawing_area, add_region,
    add_axis, hide_axis, add_plot, add_frame, open_undo_block]

/-- Characterisation of the whole undo-block construction body on any host
with a nonempty window list and all three focus pointers set: it succeeds,
the overlay frame gets id `h.nextId`, the three per-entry id lists are the
arithmetic sequences starting at `h.nextId + 5`, the original focus is
restored, the undo depth and output are unchanged, and each overlay entry
carries the corresponding captured style, symbol point and index label at
its slot height. -/
lemma initBody_spec (r : Bool) (h : Host) (w f0 p0 : Nat)
    (hwne : h.windows ≠ []) (hcw : h.curWin = some w) (hcf : h.curFrm = some f0)
    (hcp : h.curPlot = some p0) :
    ∃ h' : Host,
      Legend.initBody r h =
        (.ok { reverse := r, orig_win := w, orig_frm := f0, orig_plot := p0,
               usr_crvs := h.curves, lgnd := h.curves.map h.curveProps,
               frm := h.nextId,
               lgnd_crvs := (List.range h.curves.length).map (fun j => h.nextId + 5 + 3 * j),
               lgnd_pnts := (List.range h.curves.length).map (fun j => h.nextId + 5 + 3 * j + 1),
               lgnd_lbls := (List.range h.curves.length).map (fun j => h.nextId + 5 + 3 * j + 2) },
         h') ∧
      h'.curWin = some w ∧ h'.curFrm = some f0 ∧ h'.curPlot = some p0 ∧
      h'.undoDepth = h.undoDepth ∧ h'.output = h.output ∧
      (∀ j, (hj : j < h.curves.length) →
        h'.curveProps (h.nextId + 5 + 3 * j) =
          symbolNone (h.curveProps (h.curves.get ⟨j, hj⟩)) ∧
        h'.curveData (h.nextId + 5 + 3 * j) =
          ([1 / 4, 1],
           [(slotY r h.curves.length j : ℚ), (slotY r h.curves.length j : ℚ)]) ∧
        h'.pointProps (h.nextId + 5 + 3 * j + 1) =
          Legend.get_point_properties (h.curveProps (h.curves.get ⟨j, hj⟩)).symbol ∧
        h'.pointPos (h.nextId + 5 + 3 * j + 1) =
          (5 / 8, (slotY r h.curves.length j : ℚ)) ∧
        h'.labelText (h.nextId + 5 + 3 * j + 2) = toString j ∧
        h'.labelPos (h.nextId + 5 + 3 * j + 2) =
          (5 / 4, (slotY r h.curves.length j : ℚ))) := by
  have hune : (open_undo_block h).isEmptyB = false :=
    isEmptyB_false_of_windows _ (by simpa [open_undo_block] using hwne)
  have hgcc : Legend.get_current_curves (open_undo_block h) =
      .ok (w, f0, p0, h.curves, h.curves.map h.curveProps) := by
    rw [get_current_curves_spec (open_undo_block h) w f0 p0 hune
      (by simpa [open_undo_block] using hcw)
      (by simpa [open_undo_block] using hcf)
      (by simpa [open_undo_block] using hcp)]
    simp [open_undo_block]
  obtain ⟨e2next, e2win, e2crv, e2und, e2out, e2cp, e2pp, e2lt⟩ := preDrawHost_fields h
  obtain ⟨h3, hdraw, d_next, d_win, d_frm, d_plt, d_cw, d_cf, d_cp, d_und, d_out,
    d_fr, d_fp, d_ff, d_pcv, d_ppt, d_plb, d_pcd, d_ppo, d_plo, d_per⟩ :=
    drawAux_spec r h.curves.length (h.curves.map h.curveProps) 0 (preDrawHost h) [] [] []
  rw [e2next] at hdraw d_pcv d_ppt d_plb d_pcd d_ppo d_plo d_per
  simp only [List.length_map, Nat.zero_add, List.nil_append] at hdraw d_per
  refine ⟨close_undo_block (set_current_plot (set_current_frame
    (set_current_window h3 w) f0) p0), ?_, ?_, ?_, ?_, ?_, ?_, ?_⟩
  · simp only [Legend.initBody, hgcc, make_frame_spec, Legend.draw, List.length_map]
    rw [show (open_undo_block h).nextId = h.nextId from rfl]
    rw [show Legend.background (Legend.make_drawing_area
      (add_frame (open_undo_block h) (1 / 2)
        (9 / 10 - min ((h.curves.length : ℚ) * (3 / 40)) (2 / 5)) (9 / 10) (9 / 10))) =
      preDrawHost h from rfl]
    rw [hdraw]
  · simp [close_undo_block, set_current_plot, set_current_frame, set_current_window]
  · simp [close_undo_block, set_current_plot, set_current_frame, set_current_window]
  · simp [close_undo_block, set_current_plot, set_current_frame, set_current_window]
  · simp [close_undo_block, set_current_plot, set_current_frame, set_current_window,
      d_und, e2und]
  · simp [close_undo_block, set_current_plot, set_current_frame, set_current_window,
      d_out, e2out]
  · intro j hj
    obtain ⟨c1, c2, c3, c4, c5, c6⟩ := d_per j hj
    exact ⟨by simpa [close_undo_block, set_current_plot, set_current_frame,
        set_current_window, List.get_eq_getElem, List.getElem_map] using c1,
      by simpa [close_undo_block, set_current_plot, set_current_frame,
        set_current_window] using c2,
      by simpa [close_undo_block, set_current_plot, set_current_frame,
        set_current_window, List.get_eq_getElem, List.getElem_map] using c3,
      by simpa [close_undo_block, set_current_plot, set_current_frame,
        set_current_window] using c4,
      by simpa [close_undo_block, set_current_plot, set_current_frame,
        set_current_window] using c5,
      by simpa [close_undo_block, set_current_plot, set_current_frame,
        set_current_window] using c6⟩

lemma hostAll_ok (h : Host) (ty : ObjType) (hne : h.isEmptyB = false) :
    hostAll h ty = .ok (h.objList ty) := by
  simp [hostAll, hne]

/-- Characterisation of a successful construction: under the four
preconditions the constructor returns the fully determined legend record and
a host in which the original focus is restored, the undo depth is unchanged,
the ≥7-curve warning is printed exactly when applicable, and each overlay
entry carries the captured style / symbol point / index label. -/
lemma init_spec (r : Bool) (h : Host) (w f0 p0 : Nat)
    (hw : h.windows.length = 1) (hf : h.frames.length = 1) (hp : h.plots.length = 1)
    (hcne : h.curves ≠ [])
    (hcw : h.curWin = some w) (hcf : h.curFrm = some f0) (hcp : h.curPlot = some p0) :
    ∃ h' : Host,
      Legend.init r h =
        (.ok { reverse := r, orig_win := w, orig_frm := f0, orig_plot := p0,
               usr_crvs := h.curves, lgnd := h.curves.map h.curveProps,
               frm := h.nextId,
               lgnd_crvs := (List.range h.curves.length).map (fun j => h.nextId + 5 + 3 * j),
               lgnd_pnts := (List.range h.curves.length).map (fun j => h.nextId + 5 + 3 * j + 1),
               lgnd_lbls := (List.range h.curves.length).map (fun j => h.nextId + 5 + 3 * j + 2) },
         h') ∧
      h'.curWin = some w ∧ h'.curFrm = some f0 ∧ h'.curPlot = some p0 ∧
      h'.undoDepth = h.undoDepth ∧
      h'.output = h.output ++ (if 7 ≤ h.curves.length then [warningMsg] else []) ∧
      (∀ j, (hj : j < h.curves.length) →
        h'.curveProps (h.nextId + 5 + 3 * j) =
          symbolNone (h.curveProps (h.curves.get ⟨j, hj⟩)) ∧
        h'.curveData (h.nextId + 5 + 3 * j) =
          ([1 / 4, 1],
           [(slotY r h.curves.length j : ℚ), (slotY r h.curves.length j : ℚ)]) ∧
        h'.pointProps (h.nextId + 5 + 3 * j + 1) =
          Legend.get_point_properties (h.curveProps (h.curves.get ⟨j, hj⟩)).symbol ∧
        h'.pointPos (h.nextId + 5 + 3 * j + 1) =
          (5 / 8, (slotY r h.curves.length j : ℚ)) ∧
        h'.labelText (h.nextId + 5 + 3 * j + 2) = toString j ∧
        h'.labelPos (h.nextId + 5 + 3 * j + 2) =
          (5 / 4, (slotY r h.curves.length j : ℚ))) := by
  have hwne : h.windows ≠ [] := by
    intro hnil; rw [hnil] at hw; simp at hw
  have hne : h.isEmptyB = false := isEmptyB_false_of_windows h hwne
  have hcl : h.curves.length ≠ 0 := by
    simpa [List.length_eq_zero] using hcne
  by_cases hc7 : 7 ≤ h.curves.length
  · obtain ⟨h', hbody, b1, b2, b3, b4, b5, b6⟩ :=
      initBody_spec r (pushOutput h warningMsg) w f0 p0
        (by simpa [pushOutput] using hwne) (by simpa [pushOutput] using hcw)
        (by simpa [pushOutput] using hcf) (by simpa [pushOutput] using hcp)
    refine ⟨h', ?_, b1, b2, b3, by simpa [pushOutput] using b4, ?_,
      by simpa [pushOutput] using b6⟩
    · rw [show Legend.init r h = Legend.initBody r (pushOutput h warningMsg) from ?_]
      · rw [hbody]; simp [pushOutput]
      · simp only [Legend.init, hostAll_ok h _ hne, Host.objList, hw, hf, hp]
        simp [hcl, hc7, ge_iff_le]
    · rw [b5]; simp [pushOutput, hc7]
  · obtain ⟨h', hbody, b1, b2, b3, b4, b5, b6⟩ :=
      initBody_spec r h w f0 p0 hwne hcw hcf hcp
    refine ⟨h', ?_, b1, b2, b3, b4, ?_, b6⟩
    · rw [show Legend.init r h = Legend.initBody r h from ?_]
      · exact hbody
      · simp only [Legend.init, hostAll_ok h _ hne, Host.objList, hw, hf, hp]
        simp [hcl, hc7, ge_iff_le]
    · rw [b5]; simp [hc7]

lemma getD_eq_get {α : Type} (l : List α) (d : α) (i : Nat) (hi : i < l.length) :
    l.getD i d = l.get ⟨i, hi⟩ := by
  simp [List.getD_eq_getElem?_getD, List.getElem?_eq_getElem hi]

lemma setLabels_preserves (ps : List (Nat × String)) : ∀ (h : Host),
    (setLabels h ps).curWin = h.curWin ∧ (setLabels h ps).curFrm = h.curFrm ∧
      (setLabels h ps).curPlot = h.curPlot ∧
      (setLabels h ps).undoDepth = h.undoDepth ∧
      (setLabels h ps).output = h.output ∧
      (setLabels h ps).curveProps = h.curveProps ∧
      (setLabels h ps).pointProps = h.pointProps := by
  induction ps with
  | nil => intro h; exact ⟨rfl, rfl, rfl, rfl, rfl, rfl, rfl⟩
  | cons p tl ih =>
    intro h
    obtain ⟨i, s⟩ := p
    exact ih (set_label_text h i s)

lemma setLabels_not_mem : ∀ (ps : List (Nat × String)) (h : Host) (z : Nat),
    z ∉ ps.map Prod.fst → (setLabels h ps).labelText z = h.labelText z := by
  intro ps
  induction ps with
  | nil => intro h z _; rfl
  | cons p tl ih =>
    intro h z hz
    obtain ⟨i, s⟩ := p
    simp only [List.map_cons, List.mem_cons, not_or] at hz
    show (setLabels (set_label_text h i s) tl).labelText z = h.labelText z
    rw [ih _ z hz.2]
    simp [set_label_text, hz.1]

lemma setLabels_get : ∀ (ps : List (Nat × String)) (h : Host),
    (ps.map Prod.fst).Nodup →
    ∀ j (hj : j < ps.length),
      (setLabels h ps).labelText (ps.get ⟨j, hj⟩).1 = (ps.get ⟨j, hj⟩).2 := by
  intro ps
  induction ps with
  | nil => intro h _ j hj; exact absurd hj (by simp)
  | cons p tl ih =>
    intro h hnd j hj
    obtain ⟨i, s⟩ := p
    simp only [List.map_cons, List.nodup_cons] at hnd
    cases j with
    | zero =>
      show (setLabels (set_label_text h i s) tl).labelText i = s
      rw [setLabels_not_mem tl _ i hnd.1]
      simp [set_label_text]
    | succ j' =>
      exact ih (set_label_text h i s) hnd.2 j' (by simpa [Nat.succ_lt_succ_iff] using hj)

/-- Characterisation of a successful `label` call: with a matching count, a
current frame and a duplicate-free overlay label list, it succeeds, rewrites
exactly the overlay labels to the supplied strings in order, leaves every
other label and all other host state untouched, and restores the frame. -/
lemma label_spec (leg : Legend) (vals : List String) (h : Host) (f0 : Nat)
    (hlen : vals.length = leg.lgnd_lbls.length)
    (hnd : leg.lgnd_lbls.Nodup)
    (hne : h.isEmptyB = false) (hcf : h.curFrm = some f0) :
    ∃ h' : Host,
      Legend.label leg vals h = (none, h') ∧
      (∀ i, i < leg.lgnd_lbls.length →
        h'.labelText (leg.lgnd_lbls.getD i 0) = vals.getD i "") ∧
      (∀ z, z ∉ leg.lgnd_lbls → h'.labelText z = h.labelText z) ∧
      h'.curWin = h.curWin ∧ h'.curFrm = some f0 ∧ h'.curPlot = h.curPlot ∧
      h'.undoDepth = h.undoDepth ∧ h'.output = h.output ∧
      h'.curveProps = h.curveProps ∧ h'.pointProps = h.pointProps := by
  have hzlen : (leg.lgnd_lbls.zip vals).length = leg.lgnd_lbls.length := by
    simp [List.length_zip, hlen]
  have hmapfst : (leg.lgnd_lbls.zip vals).map Prod.fst = leg.lgnd_lbls :=
    List.map_fst_zip _ _ (by omega)
  have hcur : hostCurrent (open_undo_block h) .frame = .ok f0 := by
    unfold hostCurrent
    rw [show (open_undo_block h).isEmptyB = h.isEmptyB from rfl, hne]
    simp [Host.curPtr, open_undo_block, hcf]
  obtain ⟨p1, p2, p3, p4, p5, p6, p7⟩ :=
    setLabels_preserves (leg.lgnd_lbls.zip vals)
      (set_current_frame (open_undo_block h) leg.frm)
  refine ⟨close_undo_block (set_current_frame
      (setLabels (set_current_frame (open_undo_block h) leg.frm)
        (leg.lgnd_lbls.zip vals)) f0), ?_, ?_, ?_, ?_, ?_, ?_, ?_, ?_, ?_, ?_⟩
  · simp only [Legend.label]
    rw [if_neg (by omega)]
    simp only [hcur]
  · intro i hi
    have hiz : i < (leg.lgnd_lbls.zip vals).length := by omega
    have hg := setLabels_get (leg.lgnd_lbls.zip vals)
      (set_current_frame (open_undo_block h) leg.frm)
      (by rw [hmapfst]; exact hnd) i hiz
    show (setLabels (set_current_frame (open_undo_block h) leg.frm)
      (leg.lgnd_lbls.zip vals)).labelText (leg.lgnd_lbls.getD i 0) = vals.getD i ""
    rw [getD_eq_get _ _ i hi, getD_eq_get _ _ i (by omega)]
    simpa [List.get_eq_getElem, List.getElem_zip] using hg
  · intro z hz
    show (setLabels (set_current_frame (open_undo_block h) leg.frm)
      (leg.lgnd_lbls.zip vals)).labelText z = h.labelText z
    rw [setLabels_not_mem _ _ z (by rw [hmapfst]; exact hz)]
    rfl
  · exact p1
  · rfl
  · exact p3
  · show (setLabels (set_current_frame (open_undo_block h) leg.frm)
      (leg.lgnd_lbls.zip vals)).undoDepth - 1 = h.undoDepth
    rw [p4]
    rfl
  · exact p5
  · exact p6
  · exact p7

/-- The composite host effect of one iteration of the `update` loop. -/
def stepU (leg : Legend) (u l q : Nat) (h : Host) : Host :=
  set_point
    (set_curve_symbol_none
      (set_curve
        (set_current_frame
          (set_current_plot (set_current_frame (set_current_window h leg.orig_win)
            leg.orig_frm) leg.orig_plot) leg.frm)
        l
        (get_curve (set_current_plot (set_current_frame
          (set_current_window h leg.orig_win) leg.orig_frm) leg.orig_plot) u))
      l)
    q
    (Legend.get_point_properties
      (get_curve (set_current_plot (set_current_frame
        (set_current_window h leg.orig_win) leg.orig_frm) leg.orig_plot) u).symbol)

lemma updateLoop_cons (leg : Legend) (u l q : Nat) (tl : List (Nat × Nat × Nat))
    (h : Host) :
    Legend.updateLoop leg ((u, l, q) :: tl) h =
      Legend.updateLoop leg tl (stepU leg u l q h) := rfl

lemma stepU_curveProps (leg : Legend) (u l q : Nat) (h : Host) :
    (stepU leg u l q h).curveProps = upd h.curveProps l (symbolNone (h.curveProps u)) := by
  simp [stepU, set_point, set_curve_symbol_none, set_curve, set_current_frame,
    set_current_plot, set_current_window, get_curve, upd_upd_same]

lemma stepU_pointProps (leg : Legend) (u l q : Nat) (h : Host) :
    (stepU leg u l q h).pointProps =
      upd h.pointProps q (Legend.get_point_properties (h.curveProps u).symbol) := by
  simp [stepU, set_point, set_curve_symbol_none, set_curve, set_current_frame,
    set_current_plot, set_current_window, get_curve]

@[simp] lemma stepU_fields (leg : Legend) (u l q : Nat) (h : Host) :
    (stepU leg u l q h).labelText = h.labelText ∧
      (stepU leg u l q h).undoDepth = h.undoDepth ∧
      (stepU leg u l q h).output = h.output ∧
      (stepU leg u l q h).windows = h.windows ∧
      (stepU leg u l q h).framePos = h.framePos ∧
      (stepU leg u l q h).curWin = some leg.orig_win ∧
      (stepU leg u l q h).curFrm = some leg.frm ∧
      (stepU leg u l q h).curPlot = some leg.orig_plot := by
  simp [stepU, set_point, set_curve_symbol_none, set_curve, set_current_frame,
    set_current_plot, set_current_window, get_curve]

lemma updateLoop_labelText (leg : Legend) :
    ∀ (ps : List (Nat × Nat × Nat)) (h : Host),
    (Legend.updateLoop leg ps h).labelText = h.labelText := by
  intro ps
  induction ps with
  | nil => intro h; rfl
  | cons p tl ih =>
    intro h
    obtain ⟨u, l, q⟩ := p
    rw [updateLoop_cons, ih _, (stepU_fields leg u l q h).1]

lemma updateLoop_preserves (leg : Legend) :
    ∀ (ps : List (Nat × Nat × Nat)) (h : Host),
    (Legend.updateLoop leg ps h).undoDepth = h.undoDepth ∧
      (Legend.updateLoop leg ps h).output = h.output ∧
      (Legend.updateLoop leg ps h).windows = h.windows ∧
      (Legend.updateLoop leg ps h).framePos = h.framePos := by
  intro ps
  induction ps with
  | nil => intro h; exact ⟨rfl, rfl, rfl, rfl⟩
  | cons p tl ih =>
    intro h
    obtain ⟨u, l, q⟩ := p
    obtain ⟨i1, i2, i3, i4⟩ := ih (stepU leg u l q h)
    obtain ⟨_, s2, s3, s4, s5, _⟩ := stepU_fields leg u l q h
    rw [updateLoop_cons]
    exact ⟨i1.trans s2, i2.trans s3, i3.trans s4, i4.trans s5⟩

lemma updateLoop_focus (leg : Legend) :
    ∀ (ps : List (Nat × Nat × Nat)) (h : Host), ps ≠ [] →
    (Legend.updateLoop leg ps h).curWin = some leg.orig_win ∧
      (Legend.updateLoop leg ps h).curFrm = some leg.frm ∧
      (Legend.updateLoop leg ps h).curPlot = some leg.orig_plot := by
  intro ps
  induction ps with
  | nil => intro h hne; exact absurd rfl hne
  | cons p tl ih =>
    intro h _
    obtain ⟨u, l, q⟩ := p
    obtain ⟨_, _, _, _, _, s6, s7, s8⟩ := stepU_fields leg u l q h
    rw [updateLoop_cons]
    cases tl with
    | nil => exact ⟨s6, s7, s8⟩
    | cons p' tl' => exact ih _ (by simp)

lemma updateLoop_curveProps_not_mem (leg : Legend) :
    ∀ (ps : List (Nat × Nat × Nat)) (h : Host) (z : Nat),
    z ∉ ps.map (fun p => p.2.1) →
    (Legend.updateLoop leg ps h).curveProps z = h.curveProps z := by
  intro ps
  induction ps with
  | nil => intro h z _; rfl
  | cons p tl ih =>
    intro h z hz
    obtain ⟨u, l, q⟩ := p
    simp only [List.map_cons, List.mem_cons, not_or] at hz
    rw [updateLoop_cons, ih _ z hz.2, stepU_curveProps]
    exact upd_other _ _ _ _ hz.1

lemma updateLoop_pointProps_not_mem (leg : Legend) :
    ∀ (ps : List (Nat × Nat × Nat)) (h : Host) (z : Nat),
    z ∉ ps.map (fun p => p.2.2) →
    (Legend.updateLoop leg ps h).pointProps z = h.pointProps z := by
  intro ps
  induction ps with
  | nil => intro h z _; rfl
  | cons p tl ih =>
    intro h z hz
    obtain ⟨u, l, q⟩ := p
    simp only [List.map_cons, List.mem_cons, not_or] at hz
    rw [updateLoop_cons, ih _ z hz.2, stepU_pointProps]
    exact upd_other _ _ _ _ hz.1

lemma updateLoop_main (leg : Legend) :
    ∀ (ps : List (Nat × Nat × Nat)) (h : Host),
    (ps.map (fun p => p.2.1)).Nodup →
    (ps.map (fun p => p.2.2)).Nodup →
    (∀ p ∈ ps, p.1 ∉ ps.map (fun q => q.2.1)) →
    ∀ j, (hj : j < ps.length) →
      (Legend.updateLoop leg ps h).curveProps ((ps.get ⟨j, hj⟩).2.1) =
        symbolNone (h.curveProps ((ps.get ⟨j, hj⟩).1)) ∧
      (Legend.updateLoop leg ps h).pointProps ((ps.get ⟨j, hj⟩).2.2) =
        Legend.get_point_properties (h.curveProps ((ps.get ⟨j, hj⟩).1)).symbol := by
  intro ps
  induction ps with
  | nil => intro h _ _ _ j hj; exact absurd hj (by simp)
  | cons p tl ih =>
    intro h hnd1 hnd2 hdisj j hj
    obtain ⟨u, l, q⟩ := p
    simp only [List.map_cons, List.nodup_cons] at hnd1 hnd2
    have hu_ne_l : u ≠ l := by
      have := hdisj (u, l, q) (by simp)
      simp only [List.map_cons, List.mem_cons, not_or] at this
      exact this.1
    cases j with
    | zero =>
      rw [updateLoop_cons]
      constructor
      · show (Legend.updateLoop leg tl (stepU leg u l q h)).curveProps l = _
        rw [updateLoop_curveProps_not_mem leg tl _ l hnd1.1, stepU_curveProps, upd_same]
        rfl
      · show (Legend.updateLoop leg tl (stepU leg u l q h)).pointProps q = _
        rw [updateLoop_pointProps_not_mem leg tl _ q hnd2.1, stepU_pointProps, upd_same]
        rfl
    | succ j' =>
      have hj' : j' < tl.length := by simpa [Nat.succ_lt_succ_iff] using hj
      have hdisj' : ∀ p ∈ tl, p.1 ∉ tl.map (fun q => q.2.1) := by
        intro p hp
        have := hdisj p (by simp [hp])
        simp only [List.map_cons, List.mem_cons, not_or] at this
        exact this.2
      have husr : (tl.get ⟨j', hj'⟩).1 ≠ l := by
        have := hdisj (tl.get ⟨j', hj'⟩) (by simp [tl.get_mem])
        simp only [List.map_cons, List.mem_cons, not_or] at this
        exact this.1
      obtain ⟨c1, c2⟩ := ih (stepU leg u l q h) hnd1.2 hnd2.2 hdisj' j' hj'
      rw [stepU_curveProps, upd_other _ _ _ _ husr] at c1 c2
      rw [updateLoop_cons]
      exact ⟨c1, c2⟩

/-- Characterisation of a successful `update` (resync) call: with the three
id lists of equal length, duplicate-free overlay ids disjoint from the source
ids, and a current frame, it succeeds; each overlay curve receives the source
curve's *current* style with suppressed symbol and each overlay point the
current symbol properties; label texts are untouched; the previously current
frame is restored while the focused window and plot are left at the
construction-time originals (when at least one entry exists). -/
lemma update_spec (leg : Legend) (h : Host) (f0 : Nat)
    (hlen1 : leg.lgnd_crvs.length = leg.usr_crvs.length)
    (hlen2 : leg.lgnd_pnts.length = leg.usr_crvs.length)
    (hnd1 : leg.lgnd_crvs.Nodup) (hnd2 : leg.lgnd_pnts.Nodup)
    (hdisj : ∀ u ∈ leg.usr_crvs, u ∉ leg.lgnd_crvs)
    (hne : h.isEmptyB = false) (hcf : h.curFrm = some f0) :
    ∃ h' : Host,
      Legend.update leg h = (none, h') ∧
      (∀ i, i < leg.usr_crvs.length →
        h'.curveProps (leg.lgnd_crvs.getD i 0) =
          symbolNone (h.curveProps (leg.usr_crvs.getD i 0)) ∧
        h'.pointProps (leg.lgnd_pnts.getD i 0) =
          Legend.get_point_properties (h.curveProps (leg.usr_crvs.getD i 0)).symbol) ∧
      h'.labelText = h.labelText ∧
      h'.curFrm = some f0 ∧ h'.undoDepth = h.undoDepth ∧ h'.output = h.output ∧
      (leg.usr_crvs ≠ [] →
        h'.curWin = some leg.orig_win ∧ h'.curPlot = some leg.orig_plot) ∧
      (leg.usr_crvs = [] → h'.curWin = h.curWin ∧ h'.curPlot = h.curPlot) := by
  have hcur : hostCurrent (open_undo_block h) .frame = .ok f0 := by
    unfold hostCurrent
    rw [show (open_undo_block h).isEmptyB = h.isEmptyB from rfl, hne]
    simp [Host.curPtr, open_undo_block, hcf]
  have hzplen : (leg.lgnd_crvs.zip leg.lgnd_pnts).length = leg.usr_crvs.length := by
    simp [List.length_zip, hlen1, hlen2]
  have hpslen : (leg.usr_crvs.zip (leg.lgnd_crvs.zip leg.lgnd_pnts)).length
      = leg.usr_crvs.length := by
    simp [List.length_zip, hzplen]
  have hmsnd : (leg.usr_crvs.zip (leg.lgnd_crvs.zip leg.lgnd_pnts)).map Prod.snd
      = leg.lgnd_crvs.zip leg.lgnd_pnts :=
    List.map_snd_zip _ _ (by omega)
  have hm1 : (leg.usr_crvs.zip (leg.lgnd_crvs.zip leg.lgnd_pnts)).map
      (fun p => p.2.1) = leg.lgnd_crvs := by
    have : (fun p : Nat × Nat × Nat => p.2.1) = Prod.fst ∘ Prod.snd := rfl
    rw [this, ← List.map_map, hmsnd]
    exact List.map_fst_zip _ _ (by omega)
  have hm2 : (leg.usr_crvs.zip (leg.lgnd_crvs.zip leg.lgnd_pnts)).map
      (fun p => p.2.2) = leg.lgnd_pnts := by
    have : (fun p : Nat × Nat × Nat => p.2.2) = Prod.snd ∘ Prod.snd := rfl
    rw [this, ← List.map_map, hmsnd]
    exact List.map_snd_zip _ _ (by omega)
  have hdisj' : ∀ p ∈ leg.usr_crvs.zip (leg.lgnd_crvs.zip leg.lgnd_pnts),
      p.1 ∉ (leg.usr_crvs.zip (leg.lgnd_crvs.zip leg.lgnd_pnts)).map
        (fun q => q.2.1) := by
    intro p hp
    rw [hm1]
    exact hdisj p.1 (List.of_mem_zip hp).1
  obtain ⟨q1, q2, q3, q4⟩ :=
    updateLoop_preserves leg (leg.usr_crvs.zip (leg.lgnd_crvs.zip leg.lgnd_pnts))
      (open_undo_block h)
  refine ⟨close_undo_block (set_current_frame
      (Legend.updateLoop leg (leg.usr_crvs.zip (leg.lgnd_crvs.zip leg.lgnd_pnts))
        (open_undo_block h)) f0), ?_, ?_, ?_, ?_, ?_, ?_, ?_, ?_⟩
  · simp only [Legend.update, hcur]
  · intro i hi
    have hips : i < (leg.usr_crvs.zip (leg.lgnd_crvs.zip leg.lgnd_pnts)).length := by
      omega
    obtain ⟨c1, c2⟩ := updateLoop_main leg
      (leg.usr_crvs.zip (leg.lgnd_crvs.zip leg.lgnd_pnts)) (open_undo_block h)
      (by rw [hm1]; exact hnd1) (by rw [hm2]; exact hnd2) hdisj' i hips
    simp only [List.get_eq_getElem, List.getElem_zip] at c1 c2
    rw [getD_eq_get leg.lgnd_crvs 0 i (by omega), getD_eq_get leg.lgnd_pnts 0 i (by omega),
      getD_eq_get leg.usr_crvs 0 i hi]
    constructor
    · show (Legend.updateLoop leg _ _).curveProps _ = _
      simpa [List.get_eq_getElem] using c1
    · show (Legend.updateLoop leg _ _).pointProps _ = _
      simpa [List.get_eq_getElem] using c2
  · exact updateLoop_labelText leg _ _
  · rfl
  · show (Legend.updateLoop leg _ _).undoDepth - 1 = h.undoDepth
    rw [q1]
    rfl
  · exact q2
  · intro husr
    have hpsne : leg.usr_crvs.zip (leg.lgnd_crvs.zip leg.lgnd_pnts) ≠ [] := by
      intro hnil
      rw [hnil] at hpslen
      exact husr (List.length_eq_zero.mp (by simpa using hpslen.symm))
    obtain ⟨f1, _, f3⟩ := updateLoop_focus leg _ (open_undo_block h) hpsne
    exact ⟨f1, f3⟩
  · intro husr
    have hpsnil : leg.usr_crvs.zip (leg.lgnd_crvs.zip leg.lgnd_pnts) = [] := by
      rw [husr]; rfl
    rw [hpsnil]
    exact ⟨rfl, rfl⟩

lemma my_move_frame_focus (h : Host) (x y : Int) :
    (my_move_frame h x y).curWin = h.curWin ∧
      (my_move_frame h x y).curFrm = h.curFrm ∧
      (my_move_frame h x y).curPlot = h.curPlot ∧
      (my_move_frame h x y).undoDepth = h.undoDepth := by
  unfold my_move_frame move_frame
  cases hc : h.curFrm with
  | none => exact ⟨rfl, by simp [pushOutput, hc], rfl, rfl⟩
  | some f =>
    by_cases hf : h.frameFixed f
    · simp only [hf, if_true]
      exact ⟨rfl, by simp [pushOutput, hc], rfl, rfl⟩
    · simp only [hf, if_false]
      exact ⟨rfl, by simp [translateFrame, hc], rfl, rfl⟩

lemma moveLoop_focus : ∀ (ks : List Char) (h : Host),
    (moveLoop ks h).curWin = h.curWin ∧ (moveLoop ks h).curFrm = h.curFrm ∧
      (moveLoop ks h).curPlot = h.curPlot ∧
      (moveLoop ks h).undoDepth = h.undoDepth := by
  intro ks
  induction ks with
  | nil => intro h; exact ⟨rfl, rfl, rfl, rfl⟩
  | cons k ks ih =>
    intro h
    simp only [moveLoop]
    split_ifs with h1 h2 h3 h4 h5
    · obtain ⟨m1, m2, m3, m4⟩ := my_move_frame_focus h 0 5
      obtain ⟨i1, i2, i3, i4⟩ := ih (my_move_frame h 0 5)
      exact ⟨i1.trans m1, i2.trans m2, i3.trans m3, i4.trans m4⟩
    · obtain ⟨m1, m2, m3, m4⟩ := my_move_frame_focus h 0 (-5)
      obtain ⟨i1, i2, i3, i4⟩ := ih (my_move_frame h 0 (-5))
      exact ⟨i1.trans m1, i2.trans m2, i3.trans m3, i4.trans m4⟩
    · obtain ⟨m1, m2, m3, m4⟩ := my_move_frame_focus h (-5) 0
      obtain ⟨i1, i2, i3, i4⟩ := ih (my_move_frame h (-5) 0)
      exact ⟨i1.trans m1, i2.trans m2, i3.trans m3, i4.trans m4⟩
    · obtain ⟨m1, m2, m3, m4⟩ := my_move_frame_focus h 5 0
      obtain ⟨i1, i2, i3, i4⟩ := ih (my_move_frame h 5 0)
      exact ⟨i1.trans m1, i2.trans m2, i3.trans m3, i4.trans m4⟩
    · exact ⟨rfl, rfl, rfl, rfl⟩
    · exact ih h

lemma foldl_pushOutput_fields (msgs : List String) : ∀ (h : Host),
    (msgs.foldl pushOutput h).curWin = h.curWin ∧
      (msgs.foldl pushOutput h).curFrm = h.curFrm ∧
      (msgs.foldl pushOutput h).curPlot = h.curPlot ∧
      (msgs.foldl pushOutput h).undoDepth = h.undoDepth ∧
      (msgs.foldl pushOutput h).isEmptyB = h.isEmptyB := by
  induction msgs with
  | nil => intro h; exact ⟨rfl, rfl, rfl, rfl, rfl⟩
  | cons m ms ih =>
    intro h
    obtain ⟨i1, i2, i3, i4, i5⟩ := ih (pushOutput h m)
    exact ⟨i1, i2, i3, i4, i5⟩

/-- A successful `move` call restores the focused window, frame and plot and
leaves the undo depth balanced. -/
lemma move_spec (leg : Legend) (keys : List Char) (h : Host) (f0 : Nat)
    (hne : h.isEmptyB = false) (hcf : h.curFrm = some f0) :
    ∃ h' : Host,
      Legend.move leg keys h = (none, h') ∧
      h'.curWin = h.curWin ∧ h'.curFrm = some f0 ∧ h'.curPlot = h.curPlot ∧
      h'.undoDepth = h.undoDepth := by
  obtain ⟨b1, b2, b3, b4, b5⟩ := foldl_pushOutput_fields moveBanner h
  have hcur : hostCurrent (open_undo_block (moveBanner.foldl pushOutput h))
      .frame = .ok f0 := by
    unfold hostCurrent
    rw [show (open_undo_block (moveBanner.foldl pushOutput h)).isEmptyB
      = (moveBanner.foldl pushOutput h).isEmptyB from rfl, b5, hne]
    rw [show Host.curPtr (open_undo_block (moveBanner.foldl pushOutput h)) .frame
      = (moveBanner.foldl pushOutput h).curFrm from rfl, b2, hcf]
    simp
  obtain ⟨f1, f2, f3, f4⟩ := moveLoop_focus keys
    (set_current_frame (open_undo_block (moveBanner.foldl pushOutput h)) leg.frm)
  refine ⟨close_undo_block (set_current_frame
      (moveLoop keys (set_current_frame
        (open_undo_block (moveBanner.foldl pushOutput h)) leg.frm)) f0),
    ?_, ?_, rfl, ?_, ?_⟩
  · simp only [Legend.move, hcur]
  · rw [show (close_undo_block (set_current_frame
      (moveLoop keys (set_current_frame
        (open_undo_block (moveBanner.foldl pushOutput h)) leg.frm)) f0)).curWin
      = (moveLoop keys (set_current_frame
        (open_undo_block (moveBanner.foldl pushOutput h)) leg.frm)).curWin from rfl]
    rw [f1]
    exact b1
  · rw [show (close_undo_block (set_current_frame
      (moveLoop keys (set_current_frame
        (open_undo_block (moveBanner.foldl pushOutput h)) leg.frm)) f0)).curPlot
      = (moveLoop keys (set_current_frame
        (open_undo_block (moveBanner.foldl pushOutput h)) leg.frm)).curPlot from rfl]
    rw [f3]
    exact b3
  · rw [show (close_undo_block (set_current_frame
      (moveLoop keys (set_current_frame
        (open_undo_block (moveBanner.foldl pushOutput h)) leg.frm)) f0)).undoDepth
      = (moveLoop keys (set_current_frame
        (open_undo_block (moveBanner.foldl pushOutput h)) leg.frm)).undoDepth - 1
      from rfl]
    rw [f4]
    rw [show (set_current_frame
      (open_undo_block (moveBanner.foldl pushOutput h)) leg.frm).undoDepth
      = (moveBanner.foldl pushOutput h).undoDepth + 1 from rfl, b4]
    omega

/-! ## Concrete hosts and legends used as witnesses -/

/-- A sample curve style. -/
def crvA : CurveProps :=
  { line := { color := "blue", style := "solid", thickness := 1 },
    symbol := { angle := 0, color := "red", fill := true, size := 4, style := "circle" } }

/-- A second, different sample curve style. -/
def crvB : CurveProps :=
  { line := { color := "green", style := "dashed", thickness := 2 },
    symbol := { angle := 45, color := "black", fill := false, size := 6, style := "square" } }

/-- A host with one window, one frame, one plot and two curves — the state
right after two `add_curve` calls in a fresh ChIPS session. -/
def hTwo : Host :=
  { nextId := 10, windows := [0], frames := [1], plots := [2], curves := [3, 4],
    points := [], labels := [], regions := [], axes := [],
    curveProps := fun z => if z = 4 then crvB else crvA,
    curveData := fun _ => ([], []),
    pointProps := fun _ =>
      { angle := 0, color := "red", fill := true, size := 4, style := "circle" },
    pointPos := fun _ => (0, 0),
    labelText := fun _ => "", labelPos := fun _ => (0, 0),
    frameRect := fun _ => (0, 0, 0, 0), framePos := fun _ => (0, 0),
    curWin := some 0, curFrm := some 1, curPlot := some 2,
    curCurve := some 4, curPoint := none, curLabel := none,
    frameFixed := fun _ => false, undoDepth := 0, output := [] }

/-- The empty host: a fresh session with no objects at all (both status
reports are `None`). -/
def hEmpty : Host :=
  { hTwo with
    windows := [], frames := [], plots := [], curves := [],
    curWin := none, curFrm := none, curPlot := none, curCurve := none }

/-- `hTwo` with a second window. -/
def hTwoWin : Host := { hTwo with windows := [0, 5] }

/-- `hTwo` with seven curves. -/
def hSeven : Host := { hTwo with curves := [3, 4, 5, 6, 7, 8, 9] }

/-- The legend record produced by `Legend.init false hTwo` (ids 10–20 are
consumed in order: frame, plot, two axes, region, then curve/point/label per
entry). -/
def legTwo : Legend :=
  { reverse := false, orig_win := 0, orig_frm := 1, orig_plot := 2,
    usr_crvs := [3, 4], lgnd := [crvA, crvB], frm := 10,
    lgnd_crvs := [15, 18], lgnd_pnts := [16, 19], lgnd_lbls := [17, 20] }

lemma getD_map_range {α : Type} (f : Nat → α) (n : Nat) (d : α) (i : Nat)
    (hi : i < n) : ((List.range n).map f).getD i d = f i := by
  rw [getD_eq_get _ _ i (by simp [hi])]
  simp [List.get_eq_getElem, List.getElem_map, List.getElem_range]

/-! ## The claims -/

/-- C1: for every curve count N with 1 ≤ N ≤ 6 (under the construction
preconditions: one window, one frame, one plot, the focus pointers set),
construction succeeds and creates exactly N overlay curves, N overlay points
and N overlay labels; overlay label i initially reads the decimal string of
i; and entry i of each recorded id sequence corresponds to source curve i:
its overlay curve carries source curve i's captured style (with suppressed
symbol) and its overlay point source curve i's symbol properties. -/
theorem C1_construction (h : Host) (r : Bool) (N w f0 p0 : Nat)
    (hw : h.windows.length = 1) (hf : h.frames.length = 1) (hp : h.plots.length = 1)
    (hN : h.curves.length = N) (hN1 : 1 ≤ N) (_hN6 : N ≤ 6)
    (hcw : h.curWin = some w) (hcf : h.curFrm = some f0) (hcp : h.curPlot = some p0) :
    ∃ (leg : Legend) (h' : Host), Legend.init r h = (.ok leg, h') ∧
      leg.usr_crvs = h.curves ∧
      leg.lgnd_crvs.length = N ∧ leg.lgnd_pnts.length = N ∧ leg.lgnd_lbls.length = N ∧
      (∀ i, i < N →
        h'.labelText (leg.lgnd_lbls.getD i 0) = toString i ∧
        h'.curveProps (leg.lgnd_crvs.getD i 0) =
          symbolNone (h.curveProps (h.curves.getD i 0)) ∧
        h'.pointProps (leg.lgnd_pnts.getD i 0) =
          Legend.get_point_properties (h.curveProps (h.curves.getD i 0)).symbol) := by
  have hcne : h.curves ≠ [] := by
    intro hnil
    rw [hnil] at hN
    simp at hN
    omega
  obtain ⟨h', hinit, _, _, _, _, _, hper⟩ :=
    init_spec r h w f0 p0 hw hf hp hcne hcw hcf hcp
  refine ⟨_, h', hinit, rfl, by simp [hN], by simp [hN], by simp [hN], ?_⟩
  intro i hi
  have hi' : i < h.curves.length := by omega
  obtain ⟨c1, _, c3, _, c5, _⟩ := hper i hi'
  refine ⟨?_, ?_, ?_⟩
  · show h'.labelText (((List.range h.curves.length).map
      (fun j => h.nextId + 5 + 3 * j + 2)).getD i 0) = toString i
    rw [getD_map_range _ _ _ _ hi']
    exact c5
  · show h'.curveProps (((List.range h.curves.length).map
      (fun j => h.nextId + 5 + 3 * j)).getD i 0) = _
    rw [getD_map_range _ _ _ _ hi', getD_eq_get h.curves 0 i hi']
    exact c1
  · show h'.pointProps (((List.range h.curves.length).map
      (fun j => h.nextId + 5 + 3 * j + 1)).getD i 0) = _
    rw [getD_map_range _ _ _ _ hi', getD_eq_get h.curves 0 i hi']
    exact c3

theorem C1_construction_witness :
    ∃ (leg : Legend) (h' : Host), Legend.init false hTwo = (.ok leg, h') ∧
      leg.usr_crvs = hTwo.curves ∧
      leg.lgnd_crvs.length = 2 ∧ leg.lgnd_pnts.length = 2 ∧ leg.lgnd_lbls.length = 2 ∧
      (∀ i, i < 2 →
        h'.labelText (leg.lgnd_lbls.getD i 0) = toString i ∧
        h'.curveProps (leg.lgnd_crvs.getD i 0) =
          symbolNone (hTwo.curveProps (hTwo.curves.getD i 0)) ∧
        h'.pointProps (leg.lgnd_pnts.getD i 0) =
          Legend.get_point_properties (hTwo.curveProps (hTwo.curves.getD i 0)).symbol) :=
  C1_construction hTwo false 2 0 1 2 rfl rfl rfl rfl (by decide) (by decide) rfl rfl rfl

/-- C7: entry i of the overlay always corresponds to the i-th curve of the
originally captured order regardless of the reverse flag — the recorded id
sequences and the captured source order do not depend on the flag, and the
overlay curve carries source curve i's style in both modes — while the flag
only selects the vertical slot coordinate: entry i is drawn at height
N-1-i when reverse is false and at height i when reverse is true. -/
theorem C7_reverse_slots (h : Host) (r : Bool) (N w f0 p0 : Nat)
    (hw : h.windows.length = 1) (hf : h.frames.length = 1) (hp : h.plots.length = 1)
    (hN : h.curves.length = N) (hN1 : 1 ≤ N)
    (hcw : h.curWin = some w) (hcf : h.curFrm = some f0) (hcp : h.curPlot = some p0) :
    ∃ (leg : Legend) (h' : Host), Legend.init r h = (.ok leg, h') ∧
      (∀ r' : Bool, ∃ (leg' : Legend) (h'' : Host),
        Legend.init r' h = (.ok leg', h'') ∧
        leg'.usr_crvs = leg.usr_crvs ∧ leg'.lgnd_crvs = leg.lgnd_crvs ∧
        leg'.lgnd_pnts = leg.lgnd_pnts ∧ leg'.lgnd_lbls = leg.lgnd_lbls) ∧
      (∀ i, i < N →
        h'.curveProps (leg.lgnd_crvs.getD i 0) =
          symbolNone (h.curveProps (h.curves.getD i 0)) ∧
        (h'.pointPos (leg.lgnd_pnts.getD i 0)).2 =
          (((if r = true then (i : Int) else (N : Int) - i - 1) : Int) : ℚ) ∧
        (h'.labelPos (leg.lgnd_lbls.getD i 0)).2 =
          (((if r = true then (i : Int) else (N : Int) - i - 1) : Int) : ℚ) ∧
        h'.curveData (leg.lgnd_crvs.getD i 0) =
          ([1 / 4, 1],
           [(((if r = true then (i : Int) else (N : Int) - i - 1) : Int) : ℚ),
            (((if r = true then (i : Int) else (N : Int) - i - 1) : Int) : ℚ)])) := by
  have hcne : h.curves ≠ [] := by
    intro hnil
    rw [hnil] at hN
    simp at hN
    omega
  obtain ⟨h', hinit, _, _, _, _, _, hper⟩ :=
    init_spec r h w f0 p0 hw hf hp hcne hcw hcf hcp
  have hslot : ∀ i, i < N → (slotY r h.curves.length i : Int) =
      (if r = true then (i : Int) else (N : Int) - i - 1) := by
    intro i _
    cases r <;> simp [slotY, hN]
  refine ⟨_, h', hinit, ?_, ?_⟩
  · intro r'
    obtain ⟨h'', hinit', _⟩ :=
      init_spec r' h w f0 p0 hw hf hp hcne hcw hcf hcp
    exact ⟨_, h'', hinit', rfl, rfl, rfl, rfl⟩
  · intro i hi
    have hi' : i < h.curves.length := by omega
    obtain ⟨c1, c2, _, c4, _, c6⟩ := hper i hi'
    rw [hslot i hi] at c2 c4 c6
    refine ⟨?_, ?_, ?_, ?_⟩
    · show h'.curveProps (((List.range h.curves.length).map
        (fun j => h.nextId + 5 + 3 * j)).getD i 0) = _
      rw [getD_map_range _ _ _ _ hi', getD_eq_get h.curves 0 i hi']
      exact c1
    · show (h'.pointPos (((List.range h.curves.length).map
        (fun j => h.nextId + 5 + 3 * j + 1)).getD i 0)).2 = _
      rw [getD_map_range _ _ _ _ hi', c4]
    · show (h'.labelPos (((List.range h.curves.length).map
        (fun j => h.nextId + 5 + 3 * j + 2)).getD i 0)).2 = _
      rw [getD_map_range _ _ _ _ hi', c6]
    · show h'.curveData (((List.range h.curves.length).map
        (fun j => h.nextId + 5 + 3 * j)).getD i 0) = _
      rw [getD_map_range _ _ _ _ hi', c2]

theorem C7_reverse_slots_witness :
    ∃ (leg : Legend) (h' : Host), Legend.init true hTwo = (.ok leg, h') ∧
      (∀ r' : Bool, ∃ (leg' : Legend) (h'' : Host),
        Legend.init r' hTwo = (.ok leg', h'') ∧
        leg'.usr_crvs = leg.usr_crvs ∧ leg'.lgnd_crvs = leg.lgnd_crvs ∧
        leg'.lgnd_pnts = leg.lgnd_pnts ∧ leg'.lgnd_lbls = leg.lgnd_lbls) ∧
      (∀ i, i < 2 →
        h'.curveProps (leg.lgnd_crvs.getD i 0) =
          symbolNone (hTwo.curveProps (hTwo.curves.getD i 0)) ∧
        (h'.pointPos (leg.lgnd_pnts.getD i 0)).2 =
          (((if true = true then (i : Int) else (2 : Int) - i - 1) : Int) : ℚ) ∧
        (h'.labelPos (leg.lgnd_lbls.getD i 0)).2 =
          (((if true = true then (i : Int) else (2 : Int) - i - 1) : Int) : ℚ) ∧
        h'.curveData (leg.lgnd_crvs.getD i 0) =
          ([1 / 4, 1],
           [(((if true = true then (i : Int) else (2 : Int) - i - 1) : Int) : ℚ),
            (((if true = true then (i : Int) else (2 : Int) - i - 1) : Int) : ℚ)])) :=
  C7_reverse_slots hTwo true 2 0 1 2 rfl rfl rfl rfl (by decide) rfl rfl rfl

/-- C2 counterexample: the claim "both lookups fail with a not-found error
whenever the report … contains no line starting with the requested type tag"
is false on the code.  With the one-line report `"Window [win1]"` and tag
`"Curve"`, the all-objects lookup returns the empty list — no error at all —
and the current-object lookup fails with an `IndexError` from `ff[-1]`, not
the not-found `RuntimeError`.  (The constructor's zero-curve check depends on
the empty-list behaviour.) -/
theorem C2_counterexample :
    get_all_object_name (some "Window [win1]".toList) "Curve".toList = .ok [] ∧
    get_current_object_name (some "Window [win1]".toList) "Curve".toList =
      .error .indexError :=
  ⟨rfl, rfl⟩

/-- C2 (amended): provided every matching line contains a `[`, the lookups
behave as follows.  On a `None` report both fail with the not-found
`RuntimeError`.  On a present report with no line starting with the tag, the
current-object lookup fails with an `IndexError` while the all-objects lookup
returns the empty list.  Otherwise the current-object lookup returns the
bracket-enclosed token of the last matching line and the all-objects lookup
the tokens of every matching line in report order. -/
theorem C2_lookup_behaviour (s name : PyStr)
    (hbr : ∀ l ∈ matching_lines s name, 2 ≤ (l.splitOn '[').length) :
    (get_current_object_name none name =
        .error (.runtime (noObjectsMsg name).asString) ∧
      get_all_object_name none name =
        .error (.runtime (noObjectsMsg name).asString)) ∧
    (matching_lines s name = [] →
      get_current_object_name (some s) name = .error .indexError ∧
      get_all_object_name (some s) name = .ok []) ∧
    (∀ f, (matching_lines s name).getLast? = some f →
      get_current_object_name (some s) name = .ok (bracket_token_total f)) ∧
    get_all_object_name (some s) name =
      .ok ((matching_lines s name).map bracket_token_total) := by
  refine ⟨⟨rfl, rfl⟩, ?_, ?_, ?_⟩
  · intro hnil
    constructor
    · simp only [get_current_object_name, hnil]
      rfl
    · simp only [get_all_object_name, hnil]
      rfl
  · intro f hf
    simp only [get_current_object_name, hf]
    exact bracket_token_ok f (hbr f (List.mem_of_mem_getLast? hf))
  · simp only [get_all_object_name]
    exact mapM_bracket_ok _ hbr

theorem C2_lookup_witness :
    get_current_object_name (some "Window [win1]\n  Frame [frm1]".toList)
      "Frame".toList = .ok "frm1".toList ∧
    get_all_object_name (some "Curve [c1]\nCurve [c2]".toList) "Curve".toList =
      .ok ["c1".toList, "c2".toList] := by
  constructor
  · have hc := (C2_lookup_behaviour "Window [win1]\n  Frame [frm1]".toList
      "Frame".toList (by decide)).2.2.1 ("  Frame [frm1]".toList) (by rfl)
    exact hc.trans (by rfl)
  · have ha := (C2_lookup_behaviour "Curve [c1]\nCurve [c2]".toList
      "Curve".toList (by decide)).2.2.2
    exact ha.trans (by rfl)

/-- C3 counterexample: the claim fails on `update` (resync).  Construct the
legend on a one-window/one-frame/one-plot/two-curve host (reaching `legTwo`),
then focus the legend's own plot (id 11, created by the construction); the
resync completes normally but afterwards the focused plot is the
construction-time original (id 2), not the pre-call plot (id 11). -/
theorem C3_counterexample :
    (Legend.init false hTwo).fst = .ok legTwo ∧
    (set_current_plot (Legend.init false hTwo).snd 11).curPlot = some 11 ∧
    (Legend.update legTwo (set_current_plot (Legend.init false hTwo).snd 11)).fst =
      none ∧
    (Legend.update legTwo
      (set_current_plot (Legend.init false hTwo).snd 11)).snd.curPlot = some 2 :=
  ⟨rfl, rfl, rfl, rfl⟩

/-- C3 (amended): construction, relabel and the interactive reposition each
restore the focused window, frame and plot to their pre-call values; resync
restores only the focused frame, and leaves the focused window and plot set
to the construction-time originals (which need not equal their pre-call
values). -/
theorem C3_focus_restoration (h : Host) (r : Bool) (leg : Legend)
    (w f0 p0 : Nat) (vals : List String) (keys : List Char) :
    (h.windows.length = 1 → h.frames.length = 1 → h.plots.length = 1 →
      h.curves ≠ [] → h.curWin = some w → h.curFrm = some f0 → h.curPlot = some p0 →
      ((Legend.init r h).snd.curWin = h.curWin ∧
        (Legend.init r h).snd.curFrm = h.curFrm ∧
        (Legend.init r h).snd.curPlot = h.curPlot)) ∧
    (vals.length = leg.lgnd_lbls.length → leg.lgnd_lbls.Nodup →
      h.isEmptyB = false → h.curFrm = some f0 →
      ((Legend.label leg vals h).snd.curWin = h.curWin ∧
        (Legend.label leg vals h).snd.curFrm = h.curFrm ∧
        (Legend.label leg vals h).snd.curPlot = h.curPlot)) ∧
    (h.isEmptyB = false → h.curFrm = some f0 →
      ((Legend.move leg keys h).snd.curWin = h.curWin ∧
        (Legend.move leg keys h).snd.curFrm = h.curFrm ∧
        (Legend.move leg keys h).snd.curPlot = h.curPlot)) ∧
    (leg.lgnd_crvs.length = leg.usr_crvs.length →
      leg.lgnd_pnts.length = leg.usr_crvs.length →
      leg.lgnd_crvs.Nodup → leg.lgnd_pnts.Nodup →
      (∀ u ∈ leg.usr_crvs, u ∉ leg.lgnd_crvs) →
      h.isEmptyB = false → h.curFrm = some f0 → leg.usr_crvs ≠ [] →
      ((Legend.update leg h).snd.curFrm = h.curFrm ∧
        (Legend.update leg h).snd.curWin = some leg.orig_win ∧
        (Legend.update leg h).snd.curPlot = some leg.orig_plot)) := by
  refine ⟨?_, ?_, ?_, ?_⟩
  · intro hw hf hp hcne hcw hcf hcp
    obtain ⟨h', hinit, b1, b2, b3, _⟩ := init_spec r h w f0 p0 hw hf hp hcne hcw hcf hcp
    rw [hinit]
    exact ⟨b1.trans hcw.symm, b2.trans hcf.symm, b3.trans hcp.symm⟩
  · intro hlen hnd hne hcf
    obtain ⟨h', heq, _, _, b1, b2, b3, _⟩ := label_spec leg vals h f0 hlen hnd hne hcf
    rw [heq]
    exact ⟨b1, b2.trans hcf.symm, b3⟩
  · intro hne hcf
    obtain ⟨h', heq, b1, b2, b3, _⟩ := move_spec leg keys h f0 hne hcf
    rw [heq]
    exact ⟨b1, b2.trans hcf.symm, b3⟩
  · intro hl1 hl2 hnd1 hnd2 hdisj hne hcf husr
    obtain ⟨h', heq, _, _, b1, _, _, b2, _⟩ :=
      update_spec leg h f0 hl1 hl2 hnd1 hnd2 hdisj hne hcf
    rw [heq]
    obtain ⟨w1, w2⟩ := b2 husr
    exact ⟨b1.trans hcf.symm, w1, w2⟩

theorem C3_focus_restoration_witness :
    (Legend.init false hTwo).snd.curWin = hTwo.curWin ∧
    (Legend.init false hTwo).snd.curFrm = hTwo.curFrm ∧
    (Legend.init false hTwo).snd.curPlot = hTwo.curPlot :=
  (C3_focus_restoration hTwo false legTwo 0 1 2 [] []).1 rfl rfl rfl (by decide)
    rfl rfl rfl

/-- C4: relabelling with a sequence whose length differs from the number of
entries fails with the count-mismatch `RuntimeError` and returns the host
exactly as it was: no undo block is opened and no label text changes (the
check precedes every host call in `Legend.label`). -/
theorem C4_label_mismatch (leg : Legend) (vals : List String) (h : Host)
    (hne : vals.length ≠ leg.lgnd_lbls.length) :
    Legend.label leg vals h = (some (.runtime mismatchMsg), h) := by
  simp [Legend.label, hne]

theorem C4_label_mismatch_witness :
    Legend.label legTwo ["only one"] hTwo = (some (.runtime mismatchMsg), hTwo) :=
  C4_label_mismatch legTwo ["only one"] hTwo (by decide)

/-- C5: relabelling with a sequence of length exactly N sets overlay label i
to the i-th supplied string for every i in 0..N-1, in the order of the
captured label id sequence (under the data-model invariant that the overlay
label ids are distinct, and with a current frame present). -/
theorem C5_label_sets (leg : Legend) (vals : List String) (h : Host) (f0 : Nat)
    (hlen : vals.length = leg.lgnd_lbls.length) (hnd : leg.lgnd_lbls.Nodup)
    (hne : h.isEmptyB = false) (hcf : h.curFrm = some f0) :
    ∃ h' : Host, Legend.label leg vals h = (none, h') ∧
      ∀ i, i < leg.lgnd_lbls.length →
        h'.labelText (leg.lgnd_lbls.getD i 0) = vals.getD i "" := by
  obtain ⟨h', heq, hset, _⟩ := label_spec leg vals h f0 hlen hnd hne hcf
  exact ⟨h', heq, hset⟩

theorem C5_label_sets_witness :
    ∃ h' : Host,
      Legend.label legTwo ["Below", "Above"] (Legend.init false hTwo).snd =
        (none, h') ∧
      ∀ i, i < legTwo.lgnd_lbls.length →
        h'.labelText (legTwo.lgnd_lbls.getD i 0) = ["Below", "Above"].getD i "" :=
  C5_label_sets legTwo ["Below", "Above"] (Legend.init false hTwo).snd 1
    (by decide) (by decide) (by rfl) (by rfl)

/-- C6: after resync, overlay entry i's sample curve carries source curve i's
style *as read from the host at the time resync was called* (with the symbol
suppressed on the sample curve) and the overlay point carries that style's
symbol properties — the styles captured at construction (`leg.lgnd`) play no
role — while every label text is unchanged. -/
theorem C6_resync (leg : Legend) (h : Host) (f0 : Nat)
    (hl1 : leg.lgnd_crvs.length = leg.usr_crvs.length)
    (hl2 : leg.lgnd_pnts.length = leg.usr_crvs.length)
    (hnd1 : leg.lgnd_crvs.Nodup) (hnd2 : leg.lgnd_pnts.Nodup)
    (hdisj : ∀ u ∈ leg.usr_crvs, u ∉ leg.lgnd_crvs)
    (hne : h.isEmptyB = false) (hcf : h.curFrm = some f0) :
    ∃ h' : Host, Legend.update leg h = (none, h') ∧
      (∀ i, i < leg.usr_crvs.length →
        h'.curveProps (leg.lgnd_crvs.getD i 0) =
          symbolNone (h.curveProps (leg.usr_crvs.getD i 0)) ∧
        h'.pointProps (leg.lgnd_pnts.getD i 0) =
          Legend.get_point_properties (h.curveProps (leg.usr_crvs.getD i 0)).symbol) ∧
      h'.labelText = h.labelText := by
  obtain ⟨h', heq, hper, hlbl, _⟩ :=
    update_spec leg h f0 hl1 hl2 hnd1 hnd2 hdisj hne hcf
  exact ⟨h', heq, hper, hlbl⟩

theorem C6_resync_witness :
    ∃ h' : Host,
      Legend.update legTwo (set_curve (Legend.init false hTwo).snd 3 crvB) =
        (none, h') ∧
      (∀ i, i < legTwo.usr_crvs.length →
        h'.curveProps (legTwo.lgnd_crvs.getD i 0) =
          symbolNone ((set_curve (Legend.init false hTwo).snd 3 crvB).curveProps
            (legTwo.usr_crvs.getD i 0)) ∧
        h'.pointProps (legTwo.lgnd_pnts.getD i 0) =
          Legend.get_point_properties
            ((set_curve (Legend.init false hTwo).snd 3 crvB).curveProps
              (legTwo.usr_crvs.getD i 0)).symbol) ∧
      h'.labelText = (set_curve (Legend.init false hTwo).snd 3 crvB).labelText :=
  C6_resync legTwo (set_curve (Legend.init false hTwo).snd 3 crvB) 1
    (by decide) (by decide) (by decide) (by decide) (by decide) (by rfl) (by rfl)

/-- `true` exactly on the precondition-violation (`NotImplementedError`)
construction outcomes. -/
def isPrecondErr : Except LegendErr Legend → Bool
  | .error (.notImplemented _) => true
  | _ => false

/-- C8 counterexample: with no objects in the host at all (zero windows — a
case the claim covers, since 0 ≠ 1), construction fails with the not-found
`RuntimeError` raised by `_get_all_object_name` on the `None` report, not
with a precondition-violation `NotImplementedError`. -/
theorem C8_counterexample :
    hEmpty.windows.length ≠ 1 ∧
    isPrecondErr (Legend.init false hEmpty).fst = false ∧
    (Legend.init false hEmpty).fst =
      .error (.runtime ("No " ++ ObjType.window.tag ++ " objects to operate on")) :=
  ⟨by decide, rfl, rfl⟩

/-- C8 (amended): when at least one object exists, a window count ≠ 1 fails
with the window precondition error; with one window, a frame count ≠ 1 fails
with the frame error; then a plot count ≠ 1 with the plot error; then zero
curves with the curve error — each returning the host untouched.  When no
object exists at all, construction instead fails with the not-found
`RuntimeError` from the `None` report.  With seven or more curves (and the
other preconditions met) construction succeeds and prints the non-fatal
warning. -/
theorem C8_preconditions (h : Host) (r : Bool) :
    (h.isEmptyB = false → h.windows.length ≠ 1 →
      Legend.init r h =
        (.error (.notImplemented "Must have one and only one window"), h)) ∧
    (h.windows.length = 1 → h.frames.length ≠ 1 →
      Legend.init r h =
        (.error (.notImplemented "Must have one and only one frame"), h)) ∧
    (h.windows.length = 1 → h.frames.length = 1 → h.plots.length ≠ 1 →
      Legend.init r h =
        (.error (.notImplemented "Must have one and only one plot"), h)) ∧
    (h.windows.length = 1 → h.frames.length = 1 → h.plots.length = 1 →
      h.curves.length = 0 →
      Legend.init r h =
        (.error (.notImplemented "Must have at least one curve."), h)) ∧
    (h.isEmptyB = true →
      Legend.init r h =
        (.error (.runtime ("No " ++ ObjType.window.tag ++ " objects to operate on")),
         h)) ∧
    (h.windows.length = 1 → h.frames.length = 1 → h.plots.length = 1 →
      7 ≤ h.curves.length → h.curWin.isSome → h.curFrm.isSome → h.curPlot.isSome →
      ∃ (leg : Legend) (h' : Host),
        Legend.init r h = (.ok leg, h') ∧ warningMsg ∈ h'.output) := by
  refine ⟨?_, ?_, ?_, ?_, ?_, ?_⟩
  · intro hne hw
    simp [Legend.init, hostAll_ok h _ hne, Host.objList, hw]
  · intro hw hf
    have hne : h.isEmptyB = false := isEmptyB_false_of_windows h
      (by intro hnil; rw [hnil] at hw; simp at hw)
    simp [Legend.init, hostAll_ok h _ hne, Host.objList, hw, hf]
  · intro hw hf hp
    have hne : h.isEmptyB = false := isEmptyB_false_of_windows h
      (by intro hnil; rw [hnil] at hw; simp at hw)
    simp [Legend.init, hostAll_ok h _ hne, Host.objList, hw, hf, hp]
  · intro hw hf hp hc
    have hne : h.isEmptyB = false := isEmptyB_false_of_windows h
      (by intro hnil; rw [hnil] at hw; simp at hw)
    simp [Legend.init, hostAll_ok h _ hne, Host.objList, hw, hf, hp, hc]
  · intro hemp
    simp [Legend.init, hostAll, hemp]
  · intro hw hf hp hc7 hcw hcf hcp
    obtain ⟨w, hw'⟩ := Option.isSome_iff_exists.mp hcw
    obtain ⟨f0, hf'⟩ := Option.isSome_iff_exists.mp hcf
    obtain ⟨p0, hp'⟩ := Option.isSome_iff_exists.mp hcp
    have hcne : h.curves ≠ [] := by
      intro hnil; rw [hnil] at hc7; simp at hc7
    obtain ⟨h', hinit, _, _, _, _, hout, _⟩ :=
      init_spec r h w f0 p0 hw hf hp hcne hw' hf' hp'
    refine ⟨_, h', hinit, ?_⟩
    rw [hout, if_pos hc7]
    simp

theorem C8_preconditions_witness :
    Legend.init false hTwoWin =
      (.error (.notImplemented "Must have one and only one window"), hTwoWin) ∧
    (∃ (leg : Legend) (h' : Host),
      Legend.init false hSeven = (.ok leg, h') ∧ warningMsg ∈ h'.output) :=
  ⟨(C8_preconditions hTwoWin false).1 rfl (by decide),
   (C8_preconditions hSeven false).2.2.2.2.2 rfl rfl rfl (by decide) rfl rfl rfl⟩

/-- C9: in the interactive key loop, a key whose lowercased decoding is `w`,
`s`, `a` or `d` translates the current frame by the fixed pixel offsets
(0,+5), (0,−5), (−5,0), (+5,0) respectively and continues the loop; `q`
exits the loop; any other key leaves the host (in particular every frame
position) unchanged and continues the loop; and an error raised by a single
move attempt is caught and printed, after which the loop continues. -/
theorem C9_move_keys (h : Host) (k : Char) (ks : List Char) (f : Nat) :
    (h.curFrm = some f → h.frameFixed f = false →
      ((k.toLower = 'w' →
          moveLoop (k :: ks) h = moveLoop ks (translateFrame h f 0 5)) ∧
       (k.toLower = 's' →
          moveLoop (k :: ks) h = moveLoop ks (translateFrame h f 0 (-5))) ∧
       (k.toLower = 'a' →
          moveLoop (k :: ks) h = moveLoop ks (translateFrame h f (-5) 0)) ∧
       (k.toLower = 'd' →
          moveLoop (k :: ks) h = moveLoop ks (translateFrame h f 5 0)))) ∧
    (∀ x y, (translateFrame h f x y).framePos f =
      ((h.framePos f).1 + x, (h.framePos f).2 + y)) ∧
    (k.toLower = 'q' → moveLoop (k :: ks) h = h) ∧
    (k.toLower ≠ 'w' → k.toLower ≠ 's' → k.toLower ≠ 'a' → k.toLower ≠ 'd' →
      k.toLower ≠ 'q' → moveLoop (k :: ks) h = moveLoop ks h) ∧
    (∀ x y e, move_frame h x y = .error e → my_move_frame h x y = pushOutput h e) ∧
    (h.curFrm = some f → h.frameFixed f = true → k.toLower = 'w' →
      moveLoop (k :: ks) h =
        moveLoop ks (pushOutput h "move_frame failed: host rejected the move")) := by
  refine ⟨?_, ?_, ?_, ?_, ?_, ?_⟩
  · intro hc hf
    refine ⟨?_, ?_, ?_, ?_⟩ <;> intro hkey <;>
      simp [moveLoop, hkey, my_move_frame, move_frame, hc, hf]
  · intro x y
    simp [translateFrame]
  · intro hkey
    simp [moveLoop, hkey]
  · intro h1 h2 h3 h4 h5
    simp [moveLoop, h1, h2, h3, h4, h5]
  · intro x y e he
    simp [my_move_frame, he]
  · intro hc hf hkey
    simp [moveLoop, hkey, my_move_frame, move_frame, hc, hf]

theorem C9_move_keys_witness :
    moveLoop ['W'] hTwo = moveLoop [] (translateFrame hTwo 1 0 5) ∧
    moveLoop ['q', 'a'] hTwo = hTwo ∧
    moveLoop ['x'] hTwo = moveLoop [] hTwo :=
  ⟨((C9_move_keys hTwo 'W' [] 1).1 rfl rfl).1 (by decide),
   (C9_move_keys hTwo 'q' ['a'] 1).2.2.1 (by decide),
   (C9_move_keys hTwo 'x' [] 1).2.2.2.1 (by decide) (by decide) (by decide)
     (by decide) (by decide)⟩

/-- C10: all four precondition checks precede the undo block and every host
mutation: whenever any of them is violated, construction returns an error
with the host exactly as it was — in particular the undo depth is unchanged,
so no undo transaction was opened. -/
theorem C10_checks_before_mutation (h : Host) (r : Bool)
    (hbad : h.windows.length ≠ 1 ∨ h.frames.length ≠ 1 ∨ h.plots.length ≠ 1 ∨
      h.curves = []) :
    (∃ e, Legend.init r h = (.error e, h)) ∧
    (Legend.init r h).snd = h ∧
    (Legend.init r h).snd.undoDepth = h.undoDepth := by
  have key : ∃ e, Legend.init r h = (.error e, h) := by
    by_cases hemp : h.isEmptyB = true
    · exact ⟨.runtime ("No " ++ ObjType.window.tag ++ " objects to operate on"),
        by simp [Legend.init, hostAll, hemp]⟩
    · have hne : h.isEmptyB = false := by simpa using hemp
      by_cases hw : h.windows.length = 1
      · by_cases hf : h.frames.length = 1
        · by_cases hp : h.plots.length = 1
          · have hc : h.curves = [] := by tauto
            exact ⟨.notImplemented "Must have at least one curve.",
              by simp [Legend.init, hostAll_ok h _ hne, Host.objList, hw, hf, hp, hc]⟩
          · exact ⟨.notImplemented "Must have one and only one plot",
              by simp [Legend.init, hostAll_ok h _ hne, Host.objList, hw, hf, hp]⟩
        · exact ⟨.notImplemented "Must have one and only one frame",
            by simp [Legend.init, hostAll_ok h _ hne, Host.objList, hw, hf]⟩
      · exact ⟨.notImplemented "Must have one and only one window",
          by simp [Legend.init, hostAll_ok h _ hne, Host.objList, hw]⟩
  obtain ⟨e, he⟩ := key
  exact ⟨⟨e, he⟩, by rw [he], by rw [he]⟩

theorem C10_checks_before_mutation_witness :
    (∃ e, Legend.init false hTwoWin = (.error e, hTwoWin)) ∧
    (Legend.init false hTwoWin).snd = hTwoWin ∧
    (Legend.init false hTwoWin).snd.undoDepth = hTwoWin.undoDepth :=
  C10_checks_before_mutation hTwoWin false (Or.inl (by decide))
